/-
Verification of the gesture classification engine (gesture_recognizer.py,
hand_tracker.py data model, config.py constants).

Shallow embedding conventions:
* Python floats are modelled as rationals (ℚ); all arithmetic in the engine
  is +, -, *, / and comparisons, which ℚ models exactly.
* `math.sqrt` / `math.hypot` are modelled through an explicit square-root
  parameter `sq : ℚ → ℚ` threaded through the geometric functions; every
  universally quantified theorem below holds for an arbitrary `sq`, and
  concrete witnesses use `sqW`, which agrees with the real square root on
  the inputs arising there (all chosen to be perfect rational squares).
* Fallible Python operations are modelled in `Option`: list indexing
  (`landmarks[i]`, raising IndexError when out of range) is `l[i]?`, and
  arithmetic on a possibly-`None` float (raising TypeError) is an `Option`
  bind.  `update` therefore returns `none` exactly when the Python call
  would raise.
* `time.perf_counter()` is modelled by an explicit `now : ℚ` argument per
  tick (the source samples the clock twice in one tick, in `update` and in
  `_classify`; both reads are modelled by the tick's single `now`).
* The mutable `GestureRecogniser` object is an explicit `RecogniserState`
  record; each method takes the state and returns the updated state.
-/
import Mathlib

/-- A single 3-D landmark in normalised image coordinates
(hand_tracker.py, class Landmark). -/
structure Landmark where
  x : ℚ
  y : ℚ
  z : ℚ
deriving DecidableEq, Repr

/-- Snapshot of one detected hand (hand_tracker.py, class HandData). -/
structure HandData where
  landmarks : List Landmark
  handedness : String
  timestamp : ℚ
deriving DecidableEq, Repr

/-- Gesture enumeration (gesture_recognizer.py, class Gesture). -/
inductive Gesture where
  | IDLE
  | ORBIT
  | ZOOM_IN
  | ZOOM_OUT
deriving DecidableEq, Repr

/-- config.GESTURE_CONFIDENCE_FRAMES = 3 -/
def GESTURE_CONFIDENCE_FRAMES : ℕ := 3

/-- config.ORBIT_DEAD_ZONE = 0.015 -/
def ORBIT_DEAD_ZONE : ℚ := 15 / 1000

/-- config.ZOOM_SPEED_THRESHOLD = 0.8 -/
def ZOOM_SPEED_THRESHOLD : ℚ := 8 / 10

/-- config.EMA_ALPHA = 0.45 -/
def EMA_ALPHA : ℚ := 45 / 100

/-- self._ORBIT_AFTER_ZOOM_COOLDOWN = 0.3 (seconds), set in __init__. -/
def ORBIT_AFTER_ZOOM_COOLDOWN : ℚ := 3 / 10

/-- Concrete instantiation of the abstract square-root parameter, used only
in witnesses and counterexamples.  Every squared length arising in the
concrete inputs below is a perfect rational square from this table, and
each table entry maps q to its exact real square root (0² = 0, 1² = 1,
(1/2)² = 1/4, (1/20)² = 1/400, 2² = 4, 3² = 9, 4² = 16, 5² = 25,
20² = 400, 21² = 441), so on these inputs `sqW` agrees with `math.sqrt`. -/
def sqW : ℚ → ℚ := fun q =>
  if q = 0 then 0
  else if q = 1 then 1
  else if q = 1 / 4 then 1 / 2
  else if q = 1 / 400 then 1 / 20
  else if q = 4 then 2
  else if q = 9 then 3
  else if q = 16 then 4
  else if q = 25 then 5
  else if q = 400 then 20
  else if q = 441 then 21
  else 0

/-- _dist3(a, b) = math.sqrt((a.x-b.x)**2 + (a.y-b.y)**2 + (a.z-b.z)**2),
with `math.sqrt` abstracted as `sq`. -/
def dist3 (sq : ℚ → ℚ) (a b : Landmark) : ℚ :=
  sq ((a.x - b.x) ^ 2 + (a.y - b.y) ^ 2 + (a.z - b.z) ^ 2)

/-- math.hypot(dx, dy) = sqrt(dx² + dy²), with sqrt abstracted as `sq`. -/
def hypot (sq : ℚ → ℚ) (dx dy : ℚ) : ℚ := sq (dx ^ 2 + dy ^ 2)

/-- HandData.fingertip_center: average of the five fingertip landmarks
(indices 4, 8, 12, 16, 20); each indexing may fail on a short list. -/
def fingertipCenter (hand : HandData) : Option (ℚ × ℚ × ℚ) := do
  let t4 ← hand.landmarks[4]?
  let t8 ← hand.landmarks[8]?
  let t12 ← hand.landmarks[12]?
  let t16 ← hand.landmarks[16]?
  let t20 ← hand.landmarks[20]?
  pure ((t4.x + t8.x + t12.x + t16.x + t20.x) / 5,
        (t4.y + t8.y + t12.y + t16.y + t20.y) / 5,
        (t4.z + t8.z + t12.z + t16.z + t20.z) / 5)

/-- The mutable fields of GestureRecogniser (__init__). -/
structure RecogniserState where
  smooth_x : Option ℚ
  smooth_y : Option ℚ
  smooth_z : Option ℚ
  prev_x : Option ℚ
  prev_y : Option ℚ
  /-- deque(maxlen=10) of (timestamp, openness), oldest first. -/
  openness_history : List (ℚ × ℚ)
  last_openness : Option ℚ
  last_openness_time : ℚ
  gesture_streak : ℕ
  current_gesture : Gesture
  candidate : Gesture
  last_zoom_time : ℚ
  zoom_end_time : ℚ
deriving DecidableEq, Repr

/-- The state a freshly constructed GestureRecogniser has (__init__). -/
def initState : RecogniserState :=
  { smooth_x := none, smooth_y := none, smooth_z := none
    prev_x := none, prev_y := none
    openness_history := []
    last_openness := none, last_openness_time := 0
    gesture_streak := 0
    current_gesture := Gesture.IDLE
    candidate := Gesture.IDLE
    last_zoom_time := 0
    zoom_end_time := 0 }

/-- _reset_smooth: clear the smoothed position, the previous position and
the openness history. -/
def resetSmooth (s : RecogniserState) : RecogniserState :=
  { s with smooth_x := none, smooth_y := none, smooth_z := none
           prev_x := none, prev_y := none
           openness_history := [] }

/-- `deque(maxlen=10).append`: drop the oldest element when the deque is
full (its length can never exceed 10 in Python, so ≤-vs-= is immaterial). -/
def dequeAppend (h : List (ℚ × ℚ)) (e : ℚ × ℚ) : List (ℚ × ℚ) :=
  if 10 ≤ h.length then h.tail ++ [e] else h ++ [e]

/-- _openness_speed: rate of change of openness.  `history[0]` is the
oldest sample, `history[-1]` the newest; the defaults of `headD` /
`getLastD` are unreachable because the length guard ensures the list is
non-empty. -/
def opennessSpeed (hist : List (ℚ × ℚ)) : Option ℚ :=
  if hist.length < 4 then none
  else
    let first := hist.headD (0, 0)
    let last := hist.getLastD (0, 0)
    let dt := last.1 - first.1
    if dt < 5 / 100 then none
    else some ((last.2 - first.2) / dt)

/-- _set_gesture: confidence-frame hysteresis.  Returns the updated state
together with the Python return value (the confirmed gesture). -/
def setGesture (s : RecogniserState) (g : Gesture) : RecogniserState × Gesture :=
  let s₁ :=
    if g = s.candidate then { s with gesture_streak := s.gesture_streak + 1 }
    else { s with candidate := g, gesture_streak := 1 }
  let s₂ :=
    if GESTURE_CONFIDENCE_FRAMES ≤ s₁.gesture_streak then
      { s₁ with current_gesture := g }
    else s₁
  (s₂, s₂.current_gesture)

/-- One iteration of the finger loop in _hand_openness: index the tip and
knuckle landmarks (IndexError on a short list), then contribute the ratio
unless the knuckle-to-wrist distance is below 1e-6. -/
def fingerRatioList (sq : ℚ → ℚ) (lms : List Landmark) (wrist : Landmark)
    (tipI mcpI : ℕ) : Option (List ℚ) := do
  let tip ← lms[tipI]?
  let mcp ← lms[mcpI]?
  let d_tip := dist3 sq tip wrist
  let d_mcp := dist3 sq mcp wrist
  if d_mcp < 1 / 1000000 then pure []
  else pure [d_tip / d_mcp]

/-- _hand_openness: 0.0 (fist) to 1.0 (open palm).  The Python loop over
`zip(tip_ids, mcp_ids)` is unrolled over its five fixed iterations. -/
def handOpenness (sq : ℚ → ℚ) (hand : HandData) : Option ℚ := do
  let wrist ← hand.landmarks[0]?
  let r1 ← fingerRatioList sq hand.landmarks wrist 4 2
  let r2 ← fingerRatioList sq hand.landmarks wrist 8 5
  let r3 ← fingerRatioList sq hand.landmarks wrist 12 9
  let r4 ← fingerRatioList sq hand.landmarks wrist 16 13
  let r5 ← fingerRatioList sq hand.landmarks wrist 20 17
  let ratios := r1 ++ r2 ++ r3 ++ r4 ++ r5
  if ratios = [] then pure 0
  else pure (max 0 (min 1 ((ratios.sum / (ratios.length : ℚ) - 6 / 10) / 1)))

/-- _ema: exponential smoothing of the fingertip centre.  When
`_smooth_x` is set, the source reads `_smooth_y` and `_smooth_z`
unguarded; a `None` there would raise, modelled by the `Option` binds. -/
def ema (s : RecogniserState) (x y z : ℚ) :
    Option (RecogniserState × ℚ × ℚ × ℚ) :=
  let a := EMA_ALPHA
  match s.smooth_x with
  | none =>
    some ({ s with smooth_x := some x, smooth_y := some y, smooth_z := some z },
          x, y, z)
  | some sx₀ => do
    let sy₀ ← s.smooth_y
    let sz₀ ← s.smooth_z
    let sx := a * x + (1 - a) * sx₀
    let sy := a * y + (1 - a) * sy₀
    let sz := a * z + (1 - a) * sz₀
    some ({ s with smooth_x := some sx, smooth_y := some sy, smooth_z := some sz },
          sx, sy, sz)

/-- Lines 133-135 of _classify: while the confirmed gesture is a zoom and
the (known) speed has dropped below threshold, record `now` as the
zoom-end timestamp. -/
def zoomEndUpdate (s : RecogniserState) (speed : Option ℚ) (now : ℚ) :
    RecogniserState :=
  match speed with
  | some sp =>
    if (s.current_gesture = Gesture.ZOOM_IN ∨ s.current_gesture = Gesture.ZOOM_OUT)
        ∧ |sp| < ZOOM_SPEED_THRESHOLD then
      { s with zoom_end_time := now }
    else s
  | none => s

/-- _classify after the speed-triggered zoom branches (lines 126-150):
zoom sustain, cooldown gate, orbit detection, idle fallback.  In the orbit
branch the source reads `self._prev_y` unguarded; `None` there would raise,
modelled by returning `none`. -/
def classifyAfterZoom (sq : ℚ → ℚ) (s : RecogniserState) (speed : Option ℚ)
    (openness sx sy now : ℚ) :
    Option (RecogniserState × Gesture × Option (ℚ × ℚ)) :=
  if s.current_gesture = Gesture.ZOOM_IN ∧ 7 / 10 < openness then
    let r := setGesture s Gesture.ZOOM_IN
    some (r.1, r.2, none)
  else if s.current_gesture = Gesture.ZOOM_OUT ∧ openness < 3 / 10 then
    let r := setGesture s Gesture.ZOOM_OUT
    some (r.1, r.2, none)
  else
    let s := zoomEndUpdate s speed now
    if now - s.zoom_end_time < ORBIT_AFTER_ZOOM_COOLDOWN then
      let r := setGesture s Gesture.IDLE
      some (r.1, r.2, none)
    else if 55 / 100 < openness then
      match s.prev_x with
      | some px =>
        match s.prev_y with
        | some py =>
          let dx := sx - px
          let dy := sy - py
          let dist := hypot sq dx dy
          if ORBIT_DEAD_ZONE < dist then
            let r := setGesture s Gesture.ORBIT
            some (r.1, r.2, some (dx, dy))
          else
            let r := setGesture s Gesture.IDLE
            some (r.1, r.2, none)
        | none => none
      | none =>
        let r := setGesture s Gesture.IDLE
        some (r.1, r.2, none)
    else
      let r := setGesture s Gesture.IDLE
      some (r.1, r.2, none)

/-- _classify: speed-triggered zoom first, then the rest. -/
def classify (sq : ℚ → ℚ) (s : RecogniserState) (openness sx sy now : ℚ) :
    Option (RecogniserState × Gesture × Option (ℚ × ℚ)) :=
  let speed := opennessSpeed s.openness_history
  match speed with
  | some sp =>
    if ZOOM_SPEED_THRESHOLD < sp then
      let r := setGesture s Gesture.ZOOM_IN
      some (r.1, r.2, none)
    else if sp < -ZOOM_SPEED_THRESHOLD then
      let r := setGesture s Gesture.ZOOM_OUT
      some (r.1, r.2, none)
    else classifyAfterZoom sq s speed openness sx sy now
  | none => classifyAfterZoom sq s speed openness sx sy now

/-- GestureRecogniser.update: feed one snapshot (or `None`), return the
updated state with the (gesture, payload) pair; `none` models a raised
exception. -/
def update (sq : ℚ → ℚ) (s : RecogniserState) (hand : Option HandData)
    (now : ℚ) : Option (RecogniserState × Gesture × Option (ℚ × ℚ)) :=
  match hand with
  | none =>
    let s₁ := resetSmooth s
    let r := setGesture s₁ Gesture.IDLE
    some (r.1, r.2, none)
  | some h => do
    let openness ← handOpenness sq h
    let c ← fingertipCenter h
    let (s₁, sx, sy, _sz) ← ema s c.1 c.2.1 c.2.2
    let (s₂, gesture, payload) ← classify sq s₁ openness sx sy now
    let s₃ :=
      { s₂ with prev_x := some sx, prev_y := some sy
                openness_history := dequeAppend s₂.openness_history (now, openness)
                last_openness := some openness
                last_openness_time := now }
    some (s₃, gesture, payload)

/-- Run a list of (snapshot, time) ticks through `update`, threading the
state; `none` as soon as one tick raises. -/
def runTrace (sq : ℚ → ℚ) (s : RecogniserState) :
    List (Option HandData × ℚ) → Option RecogniserState
  | [] => some s
  | (h, t) :: rest => (update sq s h t).bind (fun r => runTrace sq r.1 rest)

/-- States reachable from a fresh recogniser by successful `update` calls. -/
inductive Reach (sq : ℚ → ℚ) : RecogniserState → Prop where
  | init : Reach sq initState
  | step (s : RecogniserState) (h : Option HandData) (now : ℚ)
      (s' : RecogniserState) (g : Gesture) (p : Option (ℚ × ℚ)) :
      Reach sq s → update sq s h now = some (s', g, p) → Reach sq s'

/-- The option fields that the source reads without a `None` guard are set
in lockstep: `_prev_x`/`_prev_y` together, `_smooth_x`/`_smooth_y`/`_smooth_z`
together. -/
def WFOptions (s : RecogniserState) : Prop :=
  (s.prev_x = none ↔ s.prev_y = none) ∧
  (s.smooth_x = none ↔ s.smooth_y = none) ∧
  (s.smooth_x = none ↔ s.smooth_z = none)

/-- One finger of the openness estimator as § 4.2 of the spec words it:
the ratio dist(tip, wrist) / dist(knuckle, wrist), skipping any finger
whose knuckle-to-wrist distance is below 1e-6 (the snapshot is assumed
well formed, so out-of-range indices do not arise; `[]` is returned for
them only to keep the function total). -/
def specRatioList (sq : ℚ → ℚ) (lms : List Landmark) (wrist : Landmark)
    (tipI mcpI : ℕ) : List ℚ :=
  match lms[tipI]?, lms[mcpI]? with
  | some tip, some mcp =>
    if dist3 sq mcp wrist < 1 / 1000000 then []
    else [dist3 sq tip wrist / dist3 sq mcp wrist]
  | _, _ => []

/-- The openness estimator as § 4.2 of the spec words it: average the
surviving per-finger ratios (0.0 when none survive) and map the average
linearly from [0.6, 1.6] onto [0, 1], clamped at both ends.  Stated from
the spec's words to be compared with `handOpenness`, the translation of
the source. -/
def opennessSpec (sq : ℚ → ℚ) (hand : HandData) : ℚ :=
  let wrist := (hand.landmarks[0]?).getD ⟨0, 0, 0⟩
  let ratios :=
    specRatioList sq hand.landmarks wrist 4 2 ++
    specRatioList sq hand.landmarks wrist 8 5 ++
    specRatioList sq hand.landmarks wrist 12 9 ++
    specRatioList sq hand.landmarks wrist 16 13 ++
    specRatioList sq hand.landmarks wrist 20 17
  if ratios = [] then 0
  else max 0 (min 1 ((ratios.sum / (ratios.length : ℚ) - 6 / 10) / 1))

/-- The all-zero landmark, filler for witness hands. -/
def lmZ : Landmark := ⟨0, 0, 0⟩

/-- Witness-input builder: a 21-landmark snapshot whose five fingertips
(indices 4, 8, 12, 16, 20) all sit at (cx, cy, 0) — so the fingertip
centroid is (cx, cy, 0) — whose wrist (index 0) sits `dTip` to the left of
them on the x-axis, and whose five knuckles (indices 2, 5, 9, 13, 17) sit
`dMcp` to the right of the wrist; every tip-to-wrist distance is `dTip`
and every knuckle-to-wrist distance is `dMcp`, so with nonnegative inputs
the openness is clamp ((dTip/dMcp − 0.6) / 1). -/
def mkHand (cx cy dTip dMcp : ℚ) : HandData :=
  { landmarks :=
      [⟨cx - dTip, cy, 0⟩, lmZ, ⟨cx - dTip + dMcp, cy, 0⟩, lmZ,
       ⟨cx, cy, 0⟩, ⟨cx - dTip + dMcp, cy, 0⟩, lmZ, lmZ,
       ⟨cx, cy, 0⟩, ⟨cx - dTip + dMcp, cy, 0⟩, lmZ, lmZ,
       ⟨cx, cy, 0⟩, ⟨cx - dTip + dMcp, cy, 0⟩, lmZ, lmZ,
       ⟨cx, cy, 0⟩, ⟨cx - dTip + dMcp, cy, 0⟩, lmZ, lmZ,
       ⟨cx, cy, 0⟩]
    handedness := "Right"
    timestamp := 0 }

/-- Degenerate witness snapshot: all 21 landmarks at the origin. -/
def degHand : HandData :=
  { landmarks := List.replicate 21 lmZ, handedness := "Right", timestamp := 0 }

/-- Witness hand, openness 0 (tips on the wrist), centroid (0, 0, 0). -/
def handA : HandData := mkHand 0 0 0 1

/-- Witness hand, openness 1 (ratio 2), centroid (1/15, 4/45, 0): after the
EMA step from a smoothed position of (0, 0) this moves the smoothed centroid
by (3/100, 1/25), of length 1/20 — above the orbit dead zone. -/
def handB : HandData := mkHand (1 / 15) (4 / 45) 1 (1 / 2)

/-- Stationary witness hand with openness 0.2 (ratio 4/5). -/
def h02 : HandData := mkHand 10 0 4 5

/-- Stationary witness hand with openness 0.45 (ratio 21/20). -/
def h045 : HandData := mkHand 10 0 21 20

/-- Stationary witness hand with openness 0.65 (ratio 5/4). -/
def h065 : HandData := mkHand 10 0 5 4

/-- Stationary witness hand with openness 0.9 (ratio 3/2). -/
def h09 : HandData := mkHand 10 0 3 2

/-- State after feeding `handA` at t = 3/10 to a fresh recogniser. -/
def c1S1 : RecogniserState :=
  { smooth_x := some 0, smooth_y := some 0, smooth_z := some 0
    prev_x := some 0, prev_y := some 0
    openness_history := [(3 / 10, 0)]
    last_openness := some 0, last_openness_time := 3 / 10
    gesture_streak := 1
    current_gesture := Gesture.IDLE
    candidate := Gesture.IDLE
    last_zoom_time := 0
    zoom_end_time := 0 }

/-- State after then feeding `handB` at t = 2/5: the orbit branch has
fired (candidate ORBIT, payload present) but the confirmed gesture is
still IDLE. -/
def c1S2 : RecogniserState :=
  { smooth_x := some (3 / 100), smooth_y := some (1 / 25), smooth_z := some 0
    prev_x := some (3 / 100), prev_y := some (1 / 25)
    openness_history := [(3 / 10, 0), (2 / 5, 1)]
    last_openness := some 1, last_openness_time := 2 / 5
    gesture_streak := 1
    current_gesture := Gesture.IDLE
    candidate := Gesture.ORBIT
    last_zoom_time := 0
    zoom_end_time := 0 }

/-- State after tick 1 of the zoom scenario (`h02` at t = 1). -/
def zS1 : RecogniserState :=
  { smooth_x := some 10, smooth_y := some 0, smooth_z := some 0
    prev_x := some 10, prev_y := some 0
    openness_history := [(1, 1 / 5)]
    last_openness := some (1 / 5), last_openness_time := 1
    gesture_streak := 1
    current_gesture := Gesture.IDLE
    candidate := Gesture.IDLE
    last_zoom_time := 0
    zoom_end_time := 0 }

/-- State after tick 2 of the zoom scenario (`h045` at t = 103/100). -/
def zS2 : RecogniserState :=
  { zS1 with openness_history := [(1, 1 / 5), (103 / 100, 9 / 20)]
             last_openness := some (9 / 20), last_openness_time := 103 / 100
             gesture_streak := 2 }

/-- State after tick 3 of the zoom scenario (`h065` at t = 107/100). -/
def zS3 : RecogniserState :=
  { zS1 with
      openness_history := [(1, 1 / 5), (103 / 100, 9 / 20), (107 / 100, 13 / 20)]
      last_openness := some (13 / 20), last_openness_time := 107 / 100
      gesture_streak := 3 }

/-- State after tick 4 of the zoom scenario (`h09` at t = 11/10): the
candidate is still IDLE because the speed window only holds three samples
at classification time. -/
def zS4 : RecogniserState :=
  { zS1 with
      openness_history :=
        [(1, 1 / 5), (103 / 100, 9 / 20), (107 / 100, 13 / 20), (11 / 10, 9 / 10)]
      last_openness := some (9 / 10), last_openness_time := 11 / 10
      gesture_streak := 4 }

/-- State after tick 5 of the zoom scenario (`h09` at t = 113/100): four
samples are now visible, speed = 7, candidate ZOOM_IN, streak 1. -/
def zS5 : RecogniserState :=
  { zS1 with
      openness_history :=
        [(1, 1 / 5), (103 / 100, 9 / 20), (107 / 100, 13 / 20), (11 / 10, 9 / 10),
         (113 / 100, 9 / 10)]
      last_openness := some (9 / 10), last_openness_time := 113 / 100
      gesture_streak := 1
      candidate := Gesture.ZOOM_IN }

/-- State after tick 6 of the zoom scenario (`h09` at t = 117/100). -/
def zS6 : RecogniserState :=
  { zS1 with
      openness_history :=
        [(1, 1 / 5), (103 / 100, 9 / 20), (107 / 100, 13 / 20), (11 / 10, 9 / 10),
         (113 / 100, 9 / 10), (117 / 100, 9 / 10)]
      last_openness := some (9 / 10), last_openness_time := 117 / 100
      gesture_streak := 2
      candidate := Gesture.ZOOM_IN }

/-- State after tick 7 of the zoom scenario (`h09` at t = 6/5): the
ZOOM_IN streak reaches the confidence-frame count and is confirmed. -/
def zS7 : RecogniserState :=
  { zS1 with
      openness_history :=
        [(1, 1 / 5), (103 / 100, 9 / 20), (107 / 100, 13 / 20), (11 / 10, 9 / 10),
         (113 / 100, 9 / 10), (117 / 100, 9 / 10), (6 / 5, 9 / 10)]
      last_openness := some (9 / 10), last_openness_time := 6 / 5
      gesture_streak := 3
      current_gesture := Gesture.ZOOM_IN
      candidate := Gesture.ZOOM_IN }

/-- The four rising-openness ticks of the zoom scenario: openness
0.2, 0.45, 0.65, 0.9 at times 1, 1.03, 1.07, 1.1 (span 0.1 s). -/
def zTicks4 : List (Option HandData × ℚ) :=
  [(some h02, 1), (some h045, 103 / 100), (some h065, 107 / 100), (some h09, 11 / 10)]

/-- The zoom scenario extended by two further openness-0.9 ticks. -/
def zTicks6 : List (Option HandData × ℚ) :=
  zTicks4 ++ [(some h09, 113 / 100), (some h09, 117 / 100)]

/-- Witness state for the cooldown-suppression claim: a confirmed ZOOM_IN
whose zoom-end timestamp is 1. -/
def coolS : RecogniserState :=
  { initState with current_gesture := Gesture.ZOOM_IN, candidate := Gesture.ZOOM_IN
                   gesture_streak := 3, zoom_end_time := 1 }

/-- Witness state for the orbit-recovery part of the cooldown claim: idle,
previous position (0, 0), cooldown long expired. -/
def orbS : RecogniserState :=
  { initState with prev_x := some 0, prev_y := some 0 }

set_option maxHeartbeats 1600000

/-- Evaluation rule for one finger of the openness loop, given the two
landmark lookups and the two distances. -/
theorem fingerRatioList_eval (sq : ℚ → ℚ) (lms : List Landmark)
    (wrist tip mcp : Landmark) (tipI mcpI : ℕ) (rT rM : ℚ)
    (ht : lms[tipI]? = some tip) (hm : lms[mcpI]? = some mcp)
    (hdT : dist3 sq tip wrist = rT) (hdM : dist3 sq mcp wrist = rM)
    (hg : ¬(rM < 1 / 1000000)) :
    fingerRatioList sq lms wrist tipI mcpI = some [rT / rM] := by
  simp only [fingerRatioList, Option.bind_eq_bind, Option.pure_def, ht, hm,
    Option.some_bind, hdT, hdM, if_neg hg]

/-- Openness of a `mkHand` snapshot: every finger contributes the same
ratio, so the average is that ratio. -/
theorem hOpen_mkHand (sq : ℚ → ℚ) (cx cy dTip dMcp rT rM : ℚ)
    (hT : sq (dTip ^ 2) = rT) (hM : sq (dMcp ^ 2) = rM)
    (hg : ¬(rM < 1 / 1000000)) :
    handOpenness sq (mkHand cx cy dTip dMcp) =
      some (max 0 (min 1 ((rT / rM - 6 / 10) / 1))) := by
  have dT : dist3 sq ⟨cx, cy, 0⟩ ⟨cx - dTip, cy, 0⟩ = rT := by
    rw [← hT]; unfold dist3; congr 1; ring
  have dM : dist3 sq ⟨cx - dTip + dMcp, cy, 0⟩ ⟨cx - dTip, cy, 0⟩ = rM := by
    rw [← hM]; unfold dist3; congr 1; ring
  have f1 := fingerRatioList_eval sq (mkHand cx cy dTip dMcp).landmarks
    ⟨cx - dTip, cy, 0⟩ ⟨cx, cy, 0⟩ ⟨cx - dTip + dMcp, cy, 0⟩ 4 2 rT rM rfl rfl dT dM hg
  have f2 := fingerRatioList_eval sq (mkHand cx cy dTip dMcp).landmarks
    ⟨cx - dTip, cy, 0⟩ ⟨cx, cy, 0⟩ ⟨cx - dTip + dMcp, cy, 0⟩ 8 5 rT rM rfl rfl dT dM hg
  have f3 := fingerRatioList_eval sq (mkHand cx cy dTip dMcp).landmarks
    ⟨cx - dTip, cy, 0⟩ ⟨cx, cy, 0⟩ ⟨cx - dTip + dMcp, cy, 0⟩ 12 9 rT rM rfl rfl dT dM hg
  have f4 := fingerRatioList_eval sq (mkHand cx cy dTip dMcp).landmarks
    ⟨cx - dTip, cy, 0⟩ ⟨cx, cy, 0⟩ ⟨cx - dTip + dMcp, cy, 0⟩ 16 13 rT rM rfl rfl dT dM hg
  have f5 := fingerRatioList_eval sq (mkHand cx cy dTip dMcp).landmarks
    ⟨cx - dTip, cy, 0⟩ ⟨cx, cy, 0⟩ ⟨cx - dTip + dMcp, cy, 0⟩ 20 17 rT rM rfl rfl dT dM hg
  have e0 : (mkHand cx cy dTip dMcp).landmarks[0]? = some ⟨cx - dTip, cy, 0⟩ := rfl
  simp only [handOpenness, Option.bind_eq_bind, Option.pure_def, e0, Option.some_bind,
    f1, f2, f3, f4, f5, List.cons_append, List.nil_append]
  rw [if_neg (by simp)]
  have havg : (([rT / rM, rT / rM, rT / rM, rT / rM, rT / rM] : List ℚ).sum /
      (([rT / rM, rT / rM, rT / rM, rT / rM, rT / rM] : List ℚ).length : ℚ) - 6 / 10) / 1
      = (rT / rM - 6 / 10) / 1 := by
    simp [List.sum_cons, List.sum_nil]
    ring
  rw [havg]

/-- Fingertip centroid of a `mkHand` snapshot. -/
theorem center_mkHand (cx cy dTip dMcp : ℚ) :
    fingertipCenter (mkHand cx cy dTip dMcp) = some (cx, cy, 0) := by
  have e4 : (mkHand cx cy dTip dMcp).landmarks[4]? = some ⟨cx, cy, 0⟩ := rfl
  have e8 : (mkHand cx cy dTip dMcp).landmarks[8]? = some ⟨cx, cy, 0⟩ := rfl
  have e12 : (mkHand cx cy dTip dMcp).landmarks[12]? = some ⟨cx, cy, 0⟩ := rfl
  have e16 : (mkHand cx cy dTip dMcp).landmarks[16]? = some ⟨cx, cy, 0⟩ := rfl
  have e20 : (mkHand cx cy dTip dMcp).landmarks[20]? = some ⟨cx, cy, 0⟩ := rfl
  simp only [fingertipCenter, Option.bind_eq_bind, Option.pure_def, e4, e8, e12, e16,
    e20, Option.some_bind]
  norm_num
  constructor <;> ring

theorem hOpen_handA : handOpenness sqW handA = some 0 := by
  have h := hOpen_mkHand sqW 0 0 0 1 0 1 (by norm_num [sqW]) (by norm_num [sqW])
    (by norm_num)
  rw [show handA = mkHand 0 0 0 1 from rfl, h]
  norm_num [max_def, min_def]

theorem center_handA : fingertipCenter handA = some (0, 0, 0) :=
  center_mkHand 0 0 0 1

theorem hOpen_handB : handOpenness sqW handB = some 1 := by
  have h := hOpen_mkHand sqW (1 / 15) (4 / 45) 1 (1 / 2) 1 (1 / 2)
    (by norm_num [sqW]) (by norm_num [sqW]) (by norm_num)
  rw [show handB = mkHand (1 / 15) (4 / 45) 1 (1 / 2) from rfl, h]
  norm_num [max_def, min_def]

theorem center_handB : fingertipCenter handB = some (1 / 15, 4 / 45, 0) :=
  center_mkHand (1 / 15) (4 / 45) 1 (1 / 2)

theorem hOpen_h02 : handOpenness sqW h02 = some (1 / 5) := by
  have h := hOpen_mkHand sqW 10 0 4 5 4 5 (by norm_num [sqW]) (by norm_num [sqW])
    (by norm_num)
  rw [show h02 = mkHand 10 0 4 5 from rfl, h]
  norm_num [max_def, min_def]

theorem center_h02 : fingertipCenter h02 = some (10, 0, 0) := center_mkHand 10 0 4 5

theorem hOpen_h045 : handOpenness sqW h045 = some (9 / 20) := by
  have h := hOpen_mkHand sqW 10 0 21 20 21 20 (by norm_num [sqW]) (by norm_num [sqW])
    (by norm_num)
  rw [show h045 = mkHand 10 0 21 20 from rfl, h]
  norm_num [max_def, min_def]

theorem center_h045 : fingertipCenter h045 = some (10, 0, 0) := center_mkHand 10 0 21 20

theorem hOpen_h065 : handOpenness sqW h065 = some (13 / 20) := by
  have h := hOpen_mkHand sqW 10 0 5 4 5 4 (by norm_num [sqW]) (by norm_num [sqW])
    (by norm_num)
  rw [show h065 = mkHand 10 0 5 4 from rfl, h]
  norm_num [max_def, min_def]

theorem center_h065 : fingertipCenter h065 = some (10, 0, 0) := center_mkHand 10 0 5 4

theorem hOpen_h09 : handOpenness sqW h09 = some (9 / 10) := by
  have h := hOpen_mkHand sqW 10 0 3 2 3 2 (by norm_num [sqW]) (by norm_num [sqW])
    (by norm_num)
  rw [show h09 = mkHand 10 0 3 2 from rfl, h]
  norm_num [max_def, min_def]

theorem center_h09 : fingertipCenter h09 = some (10, 0, 0) := center_mkHand 10 0 3 2
theorem c1_tick1 : update sqW initState (some handA) (3 / 10) =
    some (c1S1, Gesture.IDLE, none) := by
  simp only [update, Option.bind_eq_bind, Option.pure_def, hOpen_handA, center_handA,
    Option.some_bind]
  norm_num [initState, ema, EMA_ALPHA, classify, classifyAfterZoom, opennessSpeed,
    zoomEndUpdate, ORBIT_AFTER_ZOOM_COOLDOWN, ORBIT_DEAD_ZONE, ZOOM_SPEED_THRESHOLD,
    setGesture, GESTURE_CONFIDENCE_FRAMES, dequeAppend, hypot, sqW, c1S1]
  try simp

theorem c1_tick2 : update sqW c1S1 (some handB) (2 / 5) =
    some (c1S2, Gesture.IDLE, some (3 / 100, 1 / 25)) := by
  simp only [update, Option.bind_eq_bind, Option.pure_def, hOpen_handB, center_handB,
    Option.some_bind]
  norm_num [c1S1, c1S2, ema, EMA_ALPHA, classify, classifyAfterZoom, opennessSpeed,
    zoomEndUpdate, ORBIT_AFTER_ZOOM_COOLDOWN, ORBIT_DEAD_ZONE, ZOOM_SPEED_THRESHOLD,
    setGesture, GESTURE_CONFIDENCE_FRAMES, dequeAppend, hypot, sqW]
  try simp

theorem z_tick1 : update sqW initState (some h02) 1 = some (zS1, Gesture.IDLE, none) := by
  simp only [update, Option.bind_eq_bind, Option.pure_def, hOpen_h02, center_h02,
    Option.some_bind]
  norm_num [initState, ema, EMA_ALPHA, classify, classifyAfterZoom, opennessSpeed,
    zoomEndUpdate, ORBIT_AFTER_ZOOM_COOLDOWN, ORBIT_DEAD_ZONE, ZOOM_SPEED_THRESHOLD,
    setGesture, GESTURE_CONFIDENCE_FRAMES, dequeAppend, hypot, sqW, zS1]
  try simp

theorem z_tick2 : update sqW zS1 (some h045) (103 / 100) =
    some (zS2, Gesture.IDLE, none) := by
  simp only [update, Option.bind_eq_bind, Option.pure_def, hOpen_h045, center_h045,
    Option.some_bind]
  norm_num [zS1, zS2, ema, EMA_ALPHA, classify, classifyAfterZoom, opennessSpeed,
    zoomEndUpdate, ORBIT_AFTER_ZOOM_COOLDOWN, ORBIT_DEAD_ZONE, ZOOM_SPEED_THRESHOLD,
    setGesture, GESTURE_CONFIDENCE_FRAMES, dequeAppend, hypot, sqW,
    List.headD, List.getLastD]
  try simp

theorem z_tick3 : update sqW zS2 (some h065) (107 / 100) =
    some (zS3, Gesture.IDLE, none) := by
  simp only [update, Option.bind_eq_bind, Option.pure_def, hOpen_h065, center_h065,
    Option.some_bind]
  norm_num [zS1, zS2, zS3, ema, EMA_ALPHA, classify, classifyAfterZoom, opennessSpeed,
    zoomEndUpdate, ORBIT_AFTER_ZOOM_COOLDOWN, ORBIT_DEAD_ZONE, ZOOM_SPEED_THRESHOLD,
    setGesture, GESTURE_CONFIDENCE_FRAMES, dequeAppend, hypot, sqW,
    List.headD, List.getLastD]
  try simp

theorem z_tick4 : update sqW zS3 (some h09) (11 / 10) =
    some (zS4, Gesture.IDLE, none) := by
  simp only [update, Option.bind_eq_bind, Option.pure_def, hOpen_h09, center_h09,
    Option.some_bind]
  norm_num [zS1, zS3, zS4, ema, EMA_ALPHA, classify, classifyAfterZoom, opennessSpeed,
    zoomEndUpdate, ORBIT_AFTER_ZOOM_COOLDOWN, ORBIT_DEAD_ZONE, ZOOM_SPEED_THRESHOLD,
    setGesture, GESTURE_CONFIDENCE_FRAMES, dequeAppend, hypot, sqW,
    List.headD, List.getLastD]
  try simp

theorem z_tick5 : update sqW zS4 (some h09) (113 / 100) =
    some (zS5, Gesture.IDLE, none) := by
  simp only [update, Option.bind_eq_bind, Option.pure_def, hOpen_h09, center_h09,
    Option.some_bind]
  norm_num [zS1, zS4, zS5, ema, EMA_ALPHA, classify, classifyAfterZoom, opennessSpeed,
    zoomEndUpdate, ORBIT_AFTER_ZOOM_COOLDOWN, ORBIT_DEAD_ZONE, ZOOM_SPEED_THRESHOLD,
    setGesture, GESTURE_CONFIDENCE_FRAMES, dequeAppend, hypot, sqW,
    List.headD, List.getLastD]
  try simp

theorem z_tick6 : update sqW zS5 (some h09) (117 / 100) =
    some (zS6, Gesture.IDLE, none) := by
  simp only [update, Option.bind_eq_bind, Option.pure_def, hOpen_h09, center_h09,
    Option.some_bind]
  norm_num [zS1, zS5, zS6, ema, EMA_ALPHA, classify, classifyAfterZoom, opennessSpeed,
    zoomEndUpdate, ORBIT_AFTER_ZOOM_COOLDOWN, ORBIT_DEAD_ZONE, ZOOM_SPEED_THRESHOLD,
    setGesture, GESTURE_CONFIDENCE_FRAMES, dequeAppend, hypot, sqW,
    List.headD, List.getLastD]
  try simp

theorem z_tick7 : update sqW zS6 (some h09) (6 / 5) =
    some (zS7, Gesture.ZOOM_IN, none) := by
  simp only [update, Option.bind_eq_bind, Option.pure_def, hOpen_h09, center_h09,
    Option.some_bind]
  norm_num [zS1, zS6, zS7, ema, EMA_ALPHA, classify, classifyAfterZoom, opennessSpeed,
    zoomEndUpdate, ORBIT_AFTER_ZOOM_COOLDOWN, ORBIT_DEAD_ZONE, ZOOM_SPEED_THRESHOLD,
    setGesture, GESTURE_CONFIDENCE_FRAMES, dequeAppend, hypot, sqW,
    List.headD, List.getLastD]
  try simp

/-- Closed form of `setGesture`: the candidate always becomes the fed
gesture, the streak increments on a match and resets to 1 otherwise, and
the confirmed gesture switches exactly when the new streak reaches the
confidence-frame count. -/
theorem setGesture_eq (s : RecogniserState) (g : Gesture) :
    setGesture s g =
      ({ s with candidate := g
                gesture_streak :=
                  if g = s.candidate then s.gesture_streak + 1 else 1
                current_gesture :=
                  if GESTURE_CONFIDENCE_FRAMES ≤
                      (if g = s.candidate then s.gesture_streak + 1 else 1) then g
                  else s.current_gesture },
       if GESTURE_CONFIDENCE_FRAMES ≤
           (if g = s.candidate then s.gesture_streak + 1 else 1) then g
       else s.current_gesture) := by
  by_cases h1 : g = s.candidate
  · simp only [setGesture, if_pos h1]
    by_cases h2 : GESTURE_CONFIDENCE_FRAMES ≤ s.gesture_streak + 1
    · simp only [if_pos h2]
      simp [h1]
    · simp only [if_neg h2]
      simp [h1]
  · simp only [setGesture, if_neg h1]
    by_cases h2 : GESTURE_CONFIDENCE_FRAMES ≤ 1
    · simp only [if_pos h2]
    · simp only [if_neg h2]

theorem setGesture_snd_eq (s : RecogniserState) (g : Gesture) :
    (setGesture s g).2 = (setGesture s g).1.current_gesture := by
  rw [setGesture_eq]

theorem setGesture_candidate (s : RecogniserState) (g : Gesture) :
    (setGesture s g).1.candidate = g := by
  rw [setGesture_eq]

theorem setGesture_current_or (s : RecogniserState) (g : Gesture) :
    (setGesture s g).1.current_gesture = s.current_gesture ∨
    (setGesture s g).1.current_gesture = g := by
  rw [setGesture_eq]
  simp only []
  split_ifs <;> simp

theorem setGesture_preserves (s : RecogniserState) (g : Gesture) :
    (setGesture s g).1.smooth_x = s.smooth_x ∧
    (setGesture s g).1.smooth_y = s.smooth_y ∧
    (setGesture s g).1.smooth_z = s.smooth_z ∧
    (setGesture s g).1.prev_x = s.prev_x ∧
    (setGesture s g).1.prev_y = s.prev_y ∧
    (setGesture s g).1.openness_history = s.openness_history ∧
    (setGesture s g).1.zoom_end_time = s.zoom_end_time := by
  rw [setGesture_eq]
  exact ⟨rfl, rfl, rfl, rfl, rfl, rfl, rfl⟩

theorem setGesture_streak_pos (s : RecogniserState) (g : Gesture) :
    1 ≤ (setGesture s g).1.gesture_streak := by
  rw [setGesture_eq]
  simp only []
  split_ifs <;> omega

theorem setGesture_streak_eq (s : RecogniserState) (g : Gesture)
    (h : s.candidate = g) :
    (setGesture s g).1.gesture_streak = s.gesture_streak + 1 := by
  rw [setGesture_eq]
  simp [h]

theorem setGesture_confirm (s : RecogniserState) (g : Gesture)
    (hc : s.candidate = g) (hs : 2 ≤ s.gesture_streak) :
    (setGesture s g).1.current_gesture = g := by
  have h1 : g = s.candidate := hc.symm
  have h2 : GESTURE_CONFIDENCE_FRAMES ≤ s.gesture_streak + 1 := by
    unfold GESTURE_CONFIDENCE_FRAMES; omega
  rw [setGesture_eq]
  simp [if_pos h1, if_pos h2]

theorem setGesture_three (s : RecogniserState) (g : Gesture) :
    (setGesture (setGesture (setGesture s g).1 g).1 g).1.current_gesture = g := by
  have key : ∀ t : RecogniserState, t.candidate = g → 1 ≤ t.gesture_streak →
      (setGesture (setGesture t g).1 g).1.current_gesture = g := by
    intro t hc hs
    have c2 := setGesture_candidate t g
    refine setGesture_confirm _ g c2 ?_
    rw [setGesture_streak_eq t g hc]
    omega
  exact key (setGesture s g).1 (setGesture_candidate s g) (setGesture_streak_pos s g)

theorem zoomEndUpdate_preserves (s : RecogniserState) (speed : Option ℚ) (now : ℚ) :
    (zoomEndUpdate s speed now).smooth_x = s.smooth_x ∧
    (zoomEndUpdate s speed now).smooth_y = s.smooth_y ∧
    (zoomEndUpdate s speed now).smooth_z = s.smooth_z ∧
    (zoomEndUpdate s speed now).prev_x = s.prev_x ∧
    (zoomEndUpdate s speed now).prev_y = s.prev_y ∧
    (zoomEndUpdate s speed now).openness_history = s.openness_history ∧
    (zoomEndUpdate s speed now).candidate = s.candidate ∧
    (zoomEndUpdate s speed now).gesture_streak = s.gesture_streak ∧
    (zoomEndUpdate s speed now).current_gesture = s.current_gesture := by
  cases speed with
  | none => simp [zoomEndUpdate]
  | some sp =>
    simp only [zoomEndUpdate]
    split_ifs <;> simp

theorem zoomEndUpdate_records (s : RecogniserState) (sp : ℚ) (now : ℚ)
    (hz : s.current_gesture = Gesture.ZOOM_IN ∨ s.current_gesture = Gesture.ZOOM_OUT)
    (hsp : |sp| < ZOOM_SPEED_THRESHOLD) :
    (zoomEndUpdate s (some sp) now).zoom_end_time = now := by
  simp only [zoomEndUpdate]
  rw [if_pos ⟨hz, hsp⟩]

theorem zoomEndUpdate_zoom_end_or (s : RecogniserState) (speed : Option ℚ)
    (now : ℚ) :
    (zoomEndUpdate s speed now).zoom_end_time = s.zoom_end_time ∨
    (zoomEndUpdate s speed now).zoom_end_time = now := by
  cases speed with
  | none => exact Or.inl rfl
  | some sp =>
    simp only [zoomEndUpdate]
    split_ifs <;> simp

theorem classify_eq_afterZoom_none (sq : ℚ → ℚ) (s : RecogniserState)
    (op sx sy now : ℚ) (h : opennessSpeed s.openness_history = none) :
    classify sq s op sx sy now = classifyAfterZoom sq s none op sx sy now := by
  simp only [classify, h]

theorem classify_eq_afterZoom_some (sq : ℚ → ℚ) (s : RecogniserState)
    (op sx sy now sp : ℚ) (h : opennessSpeed s.openness_history = some sp)
    (h1 : ¬ ZOOM_SPEED_THRESHOLD < sp) (h2 : ¬ sp < -ZOOM_SPEED_THRESHOLD) :
    classify sq s op sx sy now = classifyAfterZoom sq s (some sp) op sx sy now := by
  simp only [classify, h, if_neg h1, if_neg h2]

theorem afterZoom_cases (sq : ℚ → ℚ) (s : RecogniserState) (speed : Option ℚ)
    (op sx sy now : ℚ) (s' : RecogniserState) (g : Gesture) (p : Option (ℚ × ℚ))
    (h : classifyAfterZoom sq s speed op sx sy now = some (s', g, p)) :
    ∃ base fed,
      (base = s ∨ base = zoomEndUpdate s speed now) ∧
      s' = (setGesture base fed).1 ∧ g = (setGesture base fed).2 ∧
      ((p = none ∧ fed ≠ Gesture.ORBIT) ∨
       (∃ px py, s.prev_x = some px ∧ s.prev_y = some py ∧
          p = some (sx - px, sy - py) ∧ fed = Gesture.ORBIT ∧
          ¬(now - (zoomEndUpdate s speed now).zoom_end_time <
              ORBIT_AFTER_ZOOM_COOLDOWN))) := by
  unfold classifyAfterZoom at h
  split_ifs at h with c1 c2 c3
  · simp only [Option.some.injEq, Prod.mk.injEq] at h
    exact ⟨s, Gesture.ZOOM_IN, Or.inl rfl, h.1.symm, h.2.1.symm,
      Or.inl ⟨h.2.2.symm, by decide⟩⟩
  · simp only [Option.some.injEq, Prod.mk.injEq] at h
    exact ⟨s, Gesture.ZOOM_OUT, Or.inl rfl, h.1.symm, h.2.1.symm,
      Or.inl ⟨h.2.2.symm, by decide⟩⟩
  · -- openness > 0.55 branch, cooldown still to split
    simp only [] at h
    split_ifs at h with c4
    · simp only [Option.some.injEq, Prod.mk.injEq] at h
      exact ⟨zoomEndUpdate s speed now, Gesture.IDLE, Or.inr rfl, h.1.symm, h.2.1.symm,
        Or.inl ⟨h.2.2.symm, by decide⟩⟩
    · rcases hpx : (zoomEndUpdate s speed now).prev_x with _ | px
      · rw [hpx] at h
        simp only [Option.some.injEq, Prod.mk.injEq] at h
        exact ⟨zoomEndUpdate s speed now, Gesture.IDLE, Or.inr rfl, h.1.symm,
          h.2.1.symm, Or.inl ⟨h.2.2.symm, by decide⟩⟩
      · rw [hpx] at h
        rcases hpy : (zoomEndUpdate s speed now).prev_y with _ | py
        · rw [hpy] at h
          simp at h
        · rw [hpy] at h
          simp only [] at h
          split_ifs at h with c5
          · simp only [Option.some.injEq, Prod.mk.injEq] at h
            refine ⟨zoomEndUpdate s speed now, Gesture.ORBIT, Or.inr rfl, h.1.symm,
              h.2.1.symm, Or.inr ⟨px, py, ?_, ?_, h.2.2.symm, rfl, c4⟩⟩
            · rw [← (zoomEndUpdate_preserves s speed now).2.2.2.1]; exact hpx
            · rw [← (zoomEndUpdate_preserves s speed now).2.2.2.2.1]; exact hpy
          · simp only [Option.some.injEq, Prod.mk.injEq] at h
            exact ⟨zoomEndUpdate s speed now, Gesture.IDLE, Or.inr rfl, h.1.symm,
              h.2.1.symm, Or.inl ⟨h.2.2.symm, by decide⟩⟩
  · -- openness too low, cooldown still to split; both outcomes are idle
    simp only [] at h
    split_ifs at h with c4
    · simp only [Option.some.injEq, Prod.mk.injEq] at h
      exact ⟨zoomEndUpdate s speed now, Gesture.IDLE, Or.inr rfl, h.1.symm, h.2.1.symm,
        Or.inl ⟨h.2.2.symm, by decide⟩⟩
    · simp only [Option.some.injEq, Prod.mk.injEq] at h
      exact ⟨zoomEndUpdate s speed now, Gesture.IDLE, Or.inr rfl, h.1.symm, h.2.1.symm,
        Or.inl ⟨h.2.2.symm, by decide⟩⟩

theorem classify_cases (sq : ℚ → ℚ) (s : RecogniserState)
    (op sx sy now : ℚ) (s' : RecogniserState) (g : Gesture) (p : Option (ℚ × ℚ))
    (h : classify sq s op sx sy now = some (s', g, p)) :
    ∃ base fed,
      (base = s ∨ base = zoomEndUpdate s (opennessSpeed s.openness_history) now) ∧
      s' = (setGesture base fed).1 ∧ g = (setGesture base fed).2 ∧
      ((p = none ∧ fed ≠ Gesture.ORBIT) ∨
       (∃ px py, s.prev_x = some px ∧ s.prev_y = some py ∧
          p = some (sx - px, sy - py) ∧ fed = Gesture.ORBIT ∧
          ¬(now - (zoomEndUpdate s (opennessSpeed s.openness_history) now).zoom_end_time <
              ORBIT_AFTER_ZOOM_COOLDOWN))) := by
  unfold classify at h
  rcases hsp : opennessSpeed s.openness_history with _ | sp
  · simp only [hsp] at h
    exact afterZoom_cases sq s none op sx sy now s' g p h
  · simp only [hsp] at h
    split_ifs at h with z1 z2
    · simp only [Option.some.injEq, Prod.mk.injEq] at h
      exact ⟨s, Gesture.ZOOM_IN, Or.inl rfl, h.1.symm, h.2.1.symm,
        Or.inl ⟨h.2.2.symm, by decide⟩⟩
    · simp only [Option.some.injEq, Prod.mk.injEq] at h
      exact ⟨s, Gesture.ZOOM_OUT, Or.inl rfl, h.1.symm, h.2.1.symm,
        Or.inl ⟨h.2.2.symm, by decide⟩⟩
    · exact afterZoom_cases sq s (some sp) op sx sy now s' g p h

theorem afterZoom_cooldown (sq : ℚ → ℚ) (s : RecogniserState) (speed : Option ℚ)
    (op sx sy now : ℚ)
    (hs1 : ¬(s.current_gesture = Gesture.ZOOM_IN ∧ 7 / 10 < op))
    (hs2 : ¬(s.current_gesture = Gesture.ZOOM_OUT ∧ op < 3 / 10))
    (hcd : now - (zoomEndUpdate s speed now).zoom_end_time < ORBIT_AFTER_ZOOM_COOLDOWN) :
    classifyAfterZoom sq s speed op sx sy now =
      some ((setGesture (zoomEndUpdate s speed now) Gesture.IDLE).1,
            (setGesture (zoomEndUpdate s speed now) Gesture.IDLE).2, none) := by
  unfold classifyAfterZoom
  rw [if_neg hs1, if_neg hs2]
  simp only []
  rw [if_pos hcd]

theorem afterZoom_orbit (sq : ℚ → ℚ) (s : RecogniserState) (speed : Option ℚ)
    (op sx sy now px py : ℚ)
    (hs1 : ¬(s.current_gesture = Gesture.ZOOM_IN ∧ 7 / 10 < op))
    (hs2 : ¬(s.current_gesture = Gesture.ZOOM_OUT ∧ op < 3 / 10))
    (hcd : ¬(now - (zoomEndUpdate s speed now).zoom_end_time < ORBIT_AFTER_ZOOM_COOLDOWN))
    (hop : 55 / 100 < op)
    (hpx : s.prev_x = some px) (hpy : s.prev_y = some py)
    (hdz : ORBIT_DEAD_ZONE < hypot sq (sx - px) (sy - py)) :
    classifyAfterZoom sq s speed op sx sy now =
      some ((setGesture (zoomEndUpdate s speed now) Gesture.ORBIT).1,
            (setGesture (zoomEndUpdate s speed now) Gesture.ORBIT).2,
            some (sx - px, sy - py)) := by
  have hpx' : (zoomEndUpdate s speed now).prev_x = some px := by
    rw [(zoomEndUpdate_preserves s speed now).2.2.2.1]; exact hpx
  have hpy' : (zoomEndUpdate s speed now).prev_y = some py := by
    rw [(zoomEndUpdate_preserves s speed now).2.2.2.2.1]; exact hpy
  unfold classifyAfterZoom
  rw [if_neg hs1, if_neg hs2]
  simp only []
  rw [if_neg hcd, if_pos hop]
  simp only [hpx', hpy']
  rw [if_pos hdz]

theorem fingerRatioList_isSome (sq : ℚ → ℚ) (lms : List Landmark)
    (wrist : Landmark) (tipI mcpI : ℕ)
    (ht : tipI < lms.length) (hm : mcpI < lms.length) :
    (fingerRatioList sq lms wrist tipI mcpI).isSome := by
  simp only [fingerRatioList, Option.bind_eq_bind, Option.pure_def,
    List.getElem?_eq_getElem ht, List.getElem?_eq_getElem hm, Option.some_bind]
  split <;> simp

theorem handOpenness_isSome (sq : ℚ → ℚ) (hand : HandData)
    (h21 : 21 ≤ hand.landmarks.length) :
    (handOpenness sq hand).isSome := by
  have hw : hand.landmarks[0]? = some hand.landmarks[0] :=
    List.getElem?_eq_getElem (by omega)
  obtain ⟨l1, h1⟩ := Option.isSome_iff_exists.mp
    (fingerRatioList_isSome sq hand.landmarks hand.landmarks[0] 4 2 (by omega) (by omega))
  obtain ⟨l2, h2⟩ := Option.isSome_iff_exists.mp
    (fingerRatioList_isSome sq hand.landmarks hand.landmarks[0] 8 5 (by omega) (by omega))
  obtain ⟨l3, h3⟩ := Option.isSome_iff_exists.mp
    (fingerRatioList_isSome sq hand.landmarks hand.landmarks[0] 12 9 (by omega) (by omega))
  obtain ⟨l4, h4⟩ := Option.isSome_iff_exists.mp
    (fingerRatioList_isSome sq hand.landmarks hand.landmarks[0] 16 13 (by omega) (by omega))
  obtain ⟨l5, h5⟩ := Option.isSome_iff_exists.mp
    (fingerRatioList_isSome sq hand.landmarks hand.landmarks[0] 20 17 (by omega) (by omega))
  simp only [handOpenness, Option.bind_eq_bind, Option.pure_def, hw, Option.some_bind,
    h1, h2, h3, h4, h5]
  split <;> simp

theorem fingertipCenter_isSome (hand : HandData)
    (h21 : 21 ≤ hand.landmarks.length) :
    (fingertipCenter hand).isSome := by
  simp only [fingertipCenter, Option.bind_eq_bind, Option.pure_def,
    List.getElem?_eq_getElem (show 4 < hand.landmarks.length by omega),
    List.getElem?_eq_getElem (show 8 < hand.landmarks.length by omega),
    List.getElem?_eq_getElem (show 12 < hand.landmarks.length by omega),
    List.getElem?_eq_getElem (show 16 < hand.landmarks.length by omega),
    List.getElem?_eq_getElem (show 20 < hand.landmarks.length by omega),
    Option.some_bind]
  simp

theorem ema_some_fields (s : RecogniserState) (x y z : ℚ)
    (s₁ : RecogniserState) (sx sy sz : ℚ)
    (h : ema s x y z = some (s₁, sx, sy, sz)) :
    s₁.smooth_x = some sx ∧ s₁.smooth_y = some sy ∧ s₁.smooth_z = some sz ∧
    s₁.prev_x = s.prev_x ∧ s₁.prev_y = s.prev_y ∧
    s₁.openness_history = s.openness_history ∧
    s₁.gesture_streak = s.gesture_streak ∧
    s₁.current_gesture = s.current_gesture ∧
    s₁.candidate = s.candidate ∧
    s₁.zoom_end_time = s.zoom_end_time := by
  unfold ema at h
  rcases hx : s.smooth_x with _ | sx0
  · rw [hx] at h
    simp only [Option.some.injEq, Prod.mk.injEq] at h
    obtain ⟨h1, h2, h3, h4⟩ := h
    subst h1; subst h2; subst h3; subst h4
    simp
  · rw [hx] at h
    rcases hy : s.smooth_y with _ | sy0
    · rw [hy] at h; simp at h
    · rw [hy] at h
      rcases hz : s.smooth_z with _ | sz0
      · rw [hz] at h; simp at h
      · rw [hz] at h
        simp only [Option.bind_eq_bind, Option.some_bind, Option.some.injEq,
          Prod.mk.injEq] at h
        obtain ⟨h1, h2, h3, h4⟩ := h
        subst h1; subst h2; subst h3; subst h4
        simp

theorem ema_isSome (s : RecogniserState) (x y z : ℚ)
    (h2 : s.smooth_x = none ↔ s.smooth_y = none)
    (h3 : s.smooth_x = none ↔ s.smooth_z = none) :
    (ema s x y z).isSome := by
  unfold ema
  rcases hx : s.smooth_x with _ | sx0
  · simp
  · have hy : s.smooth_y ≠ none := by
      intro hc
      have := h2.mpr hc
      rw [hx] at this
      exact Option.noConfusion this
    have hz : s.smooth_z ≠ none := by
      intro hc
      have := h3.mpr hc
      rw [hx] at this
      exact Option.noConfusion this
    obtain ⟨y0, hy0⟩ := Option.ne_none_iff_exists'.mp hy
    obtain ⟨z0, hz0⟩ := Option.ne_none_iff_exists'.mp hz
    simp [hy0, hz0]

theorem classify_preserves_smooth (sq : ℚ → ℚ) (s : RecogniserState)
    (op sx sy now : ℚ) (s' : RecogniserState) (g : Gesture) (p : Option (ℚ × ℚ))
    (h : classify sq s op sx sy now = some (s', g, p)) :
    s'.smooth_x = s.smooth_x ∧ s'.smooth_y = s.smooth_y ∧ s'.smooth_z = s.smooth_z := by
  obtain ⟨base, fed, hb, hs', -, -⟩ := classify_cases sq s op sx sy now s' g p h
  subst hs'
  have hsg := setGesture_preserves base fed
  rcases hb with rfl | rfl
  · exact ⟨hsg.1, hsg.2.1, hsg.2.2.1⟩
  · have hz := zoomEndUpdate_preserves s (opennessSpeed s.openness_history) now
    exact ⟨hsg.1.trans hz.1, hsg.2.1.trans hz.2.1, hsg.2.2.1.trans hz.2.2.1⟩

theorem afterZoom_isSome (sq : ℚ → ℚ) (s : RecogniserState) (speed : Option ℚ)
    (op sx sy now : ℚ)
    (hwf : s.prev_x = none ↔ s.prev_y = none) :
    (classifyAfterZoom sq s speed op sx sy now).isSome := by
  unfold classifyAfterZoom
  split_ifs with c1 c2 c3
  · simp
  · simp
  · simp only []
    split_ifs with c4
    · simp
    · rcases hpx : (zoomEndUpdate s speed now).prev_x with _ | px
      · simp
      · have hpys : s.prev_y ≠ none := by
          intro hc
          have hxnone := hwf.mpr hc
          rw [(zoomEndUpdate_preserves s speed now).2.2.2.1, hxnone] at hpx
          exact Option.noConfusion hpx
        obtain ⟨py, hpy⟩ := Option.ne_none_iff_exists'.mp hpys
        have hpy' : (zoomEndUpdate s speed now).prev_y = some py := by
          rw [(zoomEndUpdate_preserves s speed now).2.2.2.2.1]; exact hpy
        simp only [hpy']
        split_ifs <;> simp
  · simp only []
    split_ifs <;> simp

theorem classify_isSome (sq : ℚ → ℚ) (s : RecogniserState) (op sx sy now : ℚ)
    (hwf : s.prev_x = none ↔ s.prev_y = none) :
    (classify sq s op sx sy now).isSome := by
  unfold classify
  rcases hsp : opennessSpeed s.openness_history with _ | sp
  · simp only []
    exact afterZoom_isSome sq s none op sx sy now hwf
  · simp only []
    split_ifs with z1 z2
    · simp
    · simp
    · exact afterZoom_isSome sq s (some sp) op sx sy now hwf

theorem update_isSome (sq : ℚ → ℚ) (s : RecogniserState) (hand : Option HandData)
    (now : ℚ) (hwf : WFOptions s)
    (hh : hand = none ∨ ∃ hd, hand = some hd ∧ 21 ≤ hd.landmarks.length) :
    (update sq s hand now).isSome := by
  rcases hh with rfl | ⟨hd, rfl, h21⟩
  · simp [update]
  · obtain ⟨op, hop⟩ := Option.isSome_iff_exists.mp (handOpenness_isSome sq hd h21)
    obtain ⟨c, hc⟩ := Option.isSome_iff_exists.mp (fingertipCenter_isSome hd h21)
    obtain ⟨r, hr⟩ := Option.isSome_iff_exists.mp
      (ema_isSome s c.1 c.2.1 c.2.2 hwf.2.1 hwf.2.2)
    obtain ⟨s₁, sx, sy, sz⟩ := r
    have hfields := ema_some_fields s c.1 c.2.1 c.2.2 s₁ sx sy sz hr
    have hwf1 : s₁.prev_x = none ↔ s₁.prev_y = none := by
      rw [hfields.2.2.2.1, hfields.2.2.2.2.1]; exact hwf.1
    obtain ⟨r2, hr2⟩ := Option.isSome_iff_exists.mp
      (classify_isSome sq s₁ op sx sy now hwf1)
    obtain ⟨s₂, g, p⟩ := r2
    simp only [update, Option.bind_eq_bind, Option.pure_def, hop, Option.some_bind,
      hc, hr, hr2]
    simp

theorem update_WF (sq : ℚ → ℚ) (s : RecogniserState) (hand : Option HandData)
    (now : ℚ) (s' : RecogniserState) (g : Gesture) (p : Option (ℚ × ℚ))
    (h : update sq s hand now = some (s', g, p)) :
    WFOptions s' := by
  rcases hand with _ | hd
  · simp only [update, Option.some.injEq, Prod.mk.injEq] at h
    obtain ⟨h1, -, -⟩ := h
    subst h1
    have hp := setGesture_preserves (resetSmooth s) Gesture.IDLE
    unfold WFOptions
    rw [hp.1, hp.2.1, hp.2.2.1, hp.2.2.2.1, hp.2.2.2.2.1]
    simp [resetSmooth]
  · rcases hop : handOpenness sq hd with _ | op
    · simp only [update, Option.bind_eq_bind, hop, Option.none_bind] at h
      exact Option.noConfusion h
    · rcases hc : fingertipCenter hd with _ | c
      · simp only [update, Option.bind_eq_bind, hop, Option.some_bind, hc,
          Option.none_bind] at h
        exact Option.noConfusion h
      · rcases hr : ema s c.1 c.2.1 c.2.2 with _ | r
        · simp only [update, Option.bind_eq_bind, hop, Option.some_bind, hc, hr,
            Option.none_bind] at h
          exact Option.noConfusion h
        · obtain ⟨s₁, sx, sy, sz⟩ := r
          rcases hr2 : classify sq s₁ op sx sy now with _ | r2
          · simp only [update, Option.bind_eq_bind, hop, Option.some_bind, hc, hr,
              hr2, Option.none_bind] at h
            exact Option.noConfusion h
          · obtain ⟨s₂, g2, p2⟩ := r2
            have hsm1 := ema_some_fields s c.1 c.2.1 c.2.2 s₁ sx sy sz hr
            have hsm2 := classify_preserves_smooth sq s₁ op sx sy now s₂ g2 p2 hr2
            simp only [update, Option.bind_eq_bind, hop, Option.some_bind, hc, hr,
              hr2, Option.some.injEq, Prod.mk.injEq] at h
            obtain ⟨h1, -, -⟩ := h
            subst h1
            unfold WFOptions
            simp only [hsm2.1, hsm2.2.1, hsm2.2.2, hsm1.1, hsm1.2.1, hsm1.2.2.1]
            simp

theorem Reach_WF (sq : ℚ → ℚ) (s : RecogniserState) (h : Reach sq s) :
    WFOptions s := by
  induction h with
  | init => simp [WFOptions, initState]
  | step s hand now s' g p _ hupd _ => exact update_WF sq s hand now s' g p hupd

theorem fingerRatioList_eq_spec (sq : ℚ → ℚ) (lms : List Landmark)
    (wrist : Landmark) (tipI mcpI : ℕ)
    (ht : tipI < lms.length) (hm : mcpI < lms.length) :
    fingerRatioList sq lms wrist tipI mcpI =
      some (specRatioList sq lms wrist tipI mcpI) := by
  simp only [fingerRatioList, specRatioList, Option.bind_eq_bind, Option.pure_def,
    List.getElem?_eq_getElem ht, List.getElem?_eq_getElem hm, Option.some_bind]
  split_ifs <;> rfl

theorem handOpenness_eq_spec (sq : ℚ → ℚ) (hand : HandData)
    (h21 : 21 ≤ hand.landmarks.length) :
    handOpenness sq hand = some (opennessSpec sq hand) := by
  have hw : hand.landmarks[0]? = some hand.landmarks[0] :=
    List.getElem?_eq_getElem (by omega)
  simp only [handOpenness, opennessSpec, Option.bind_eq_bind, Option.pure_def, hw,
    Option.some_bind, Option.getD_some,
    fingerRatioList_eq_spec sq hand.landmarks hand.landmarks[0] 4 2 (by omega) (by omega),
    fingerRatioList_eq_spec sq hand.landmarks hand.landmarks[0] 8 5 (by omega) (by omega),
    fingerRatioList_eq_spec sq hand.landmarks hand.landmarks[0] 12 9 (by omega) (by omega),
    fingerRatioList_eq_spec sq hand.landmarks hand.landmarks[0] 16 13 (by omega) (by omega),
    fingerRatioList_eq_spec sq hand.landmarks hand.landmarks[0] 20 17 (by omega) (by omega)]
  split_ifs <;> rfl

theorem opennessSpec_bounds (sq : ℚ → ℚ) (hand : HandData) :
    0 ≤ opennessSpec sq hand ∧ opennessSpec sq hand ≤ 1 := by
  unfold opennessSpec
  simp only []
  constructor
  · split_ifs
    · exact le_refl 0
    · exact le_max_left 0 _
  · split_ifs
    · norm_num
    · exact max_le (by norm_num) (min_le_left 1 _)

/-- Hysteresis transition with an interleaved function that does not touch
the candidate/streak/current fields (such as `resetSmooth`): three
consecutive feeds of the same gesture confirm it. -/
theorem setGesture_three_mod (s : RecogniserState) (g : Gesture)
    (f : RecogniserState → RecogniserState)
    (hf : ∀ t, (f t).candidate = t.candidate ∧
      (f t).gesture_streak = t.gesture_streak ∧
      (f t).current_gesture = t.current_gesture) :
    (setGesture (f (setGesture (f (setGesture (f s) g).1) g).1) g).1.current_gesture
      = g := by
  set r1 := (setGesture (f s) g).1 with hr1
  have c1 : r1.candidate = g := setGesture_candidate (f s) g
  have p1 : 1 ≤ r1.gesture_streak := setGesture_streak_pos (f s) g
  set r2 := (setGesture (f r1) g).1 with hr2
  have c2 : r2.candidate = g := setGesture_candidate (f r1) g
  have p2 : 2 ≤ r2.gesture_streak := by
    rw [hr2, setGesture_streak_eq (f r1) g (((hf r1).1).trans c1), (hf r1).2.1]
    omega
  refine setGesture_confirm (f r2) g (((hf r2).1).trans c2) ?_
  rw [(hf r2).2.1]
  exact p2

/-- C3: the confirmed gesture changes only through the hysteresis filter:
with the confidence-frame count equal to 3, feeding candidate ORBIT twice
then IDLE from the initial state leaves the confirmed gesture IDLE
throughout, feeding ORBIT three times confirms ORBIT, and from every state
one tick leaves the confirmed gesture either unchanged or equal to the
candidate fed on that tick. -/
theorem C3_hysteresis :
    GESTURE_CONFIDENCE_FRAMES = 3 ∧
    ((setGesture initState Gesture.ORBIT).2 = Gesture.IDLE ∧
     (setGesture (setGesture initState Gesture.ORBIT).1 Gesture.ORBIT).2 =
       Gesture.IDLE ∧
     (setGesture (setGesture (setGesture initState Gesture.ORBIT).1
        Gesture.ORBIT).1 Gesture.IDLE).2 = Gesture.IDLE ∧
     (setGesture (setGesture (setGesture initState Gesture.ORBIT).1
        Gesture.ORBIT).1 Gesture.IDLE).1.current_gesture = Gesture.IDLE) ∧
    ((setGesture (setGesture (setGesture initState Gesture.ORBIT).1
        Gesture.ORBIT).1 Gesture.ORBIT).2 = Gesture.ORBIT ∧
     (setGesture (setGesture (setGesture initState Gesture.ORBIT).1
        Gesture.ORBIT).1 Gesture.ORBIT).1.current_gesture = Gesture.ORBIT) ∧
    (∀ (s : RecogniserState) (g : Gesture),
      (setGesture s g).1.current_gesture = s.current_gesture ∨
      (setGesture s g).1.current_gesture = g) :=
  ⟨rfl, by decide, by decide, setGesture_current_or⟩

/-- C8: on absence, `update` clears only the smoothed position, previous
position and openness history (candidate, streak and confirmed gesture
untouched before IDLE is fed through the filter), returns the filter's
confirmed gesture with no payload, never raises, and three consecutive
absent ticks from any state drive the confirmed gesture to IDLE. -/
theorem C8_absence_reset :
    (∀ (sq : ℚ → ℚ) (s : RecogniserState) (now : ℚ),
      update sq s none now =
        some ((setGesture (resetSmooth s) Gesture.IDLE).1,
              (setGesture (resetSmooth s) Gesture.IDLE).2, none)) ∧
    (∀ s : RecogniserState,
      (resetSmooth s).smooth_x = none ∧ (resetSmooth s).smooth_y = none ∧
      (resetSmooth s).smooth_z = none ∧ (resetSmooth s).prev_x = none ∧
      (resetSmooth s).prev_y = none ∧ (resetSmooth s).openness_history = [] ∧
      (resetSmooth s).candidate = s.candidate ∧
      (resetSmooth s).gesture_streak = s.gesture_streak ∧
      (resetSmooth s).current_gesture = s.current_gesture) ∧
    (∀ (sq : ℚ → ℚ) (s : RecogniserState) (n1 n2 n3 : ℚ),
      (runTrace sq s [(none, n1), (none, n2), (none, n3)]).map
        (fun s3 => s3.current_gesture) = some Gesture.IDLE) := by
  refine ⟨fun sq s now => rfl, fun s => by simp [resetSmooth], ?_⟩
  intro sq s n1 n2 n3
  simp only [runTrace, update, Option.bind_eq_bind, Option.some_bind, Option.map_some']
  rw [setGesture_three_mod s Gesture.IDLE resetSmooth
    (fun t => by simp [resetSmooth])]

/-- C10: in every state reachable from a fresh recogniser, `_prev_x` is
unset exactly when `_prev_y` is, and `_smooth_x`, `_smooth_y`, `_smooth_z`
are unset together; consequently the EMA step never reads an unset
coordinate (it always returns a value). -/
theorem C10_option_fields_sync :
    ∀ (sq : ℚ → ℚ) (s : RecogniserState), Reach sq s →
      (s.prev_x = none ↔ s.prev_y = none) ∧
      (s.smooth_x = none ↔ s.smooth_y = none) ∧
      (s.smooth_x = none ↔ s.smooth_z = none) ∧
      ∀ x y z : ℚ, (ema s x y z).isSome := by
  intro sq s h
  have hwf := Reach_WF sq s h
  exact ⟨hwf.1, hwf.2.1, hwf.2.2, fun x y z => ema_isSome s x y z hwf.2.1 hwf.2.2⟩

/-- Witness for C10 at the initial state (reachable by construction),
with the EMA conclusion instantiated at (1, 2, 3). -/
theorem C10_option_fields_sync_witness :
    (initState.prev_x = none ↔ initState.prev_y = none) ∧
    (initState.smooth_x = none ↔ initState.smooth_y = none) ∧
    (ema initState 1 2 3).isSome :=
  ⟨(C10_option_fields_sync sqW initState Reach.init).1,
   (C10_option_fields_sync sqW initState Reach.init).2.1,
   (C10_option_fields_sync sqW initState Reach.init).2.2.2 1 2 3⟩

/-- C6: the openness-speed computation returns `None` exactly when fewer
than 4 samples are buffered or the oldest-to-newest time span is under
0.05 s; otherwise it returns (openness_last − openness_first) /
(timestamp_last − timestamp_first). -/
theorem C6_speed_guards :
    (∀ hist : List (ℚ × ℚ), hist.length < 4 → opennessSpeed hist = none) ∧
    (∀ (hist : List (ℚ × ℚ)) (t0 o0 t1 o1 : ℚ),
      hist.head? = some (t0, o0) → hist.getLast? = some (t1, o1) →
      ((opennessSpeed hist = none ↔ (hist.length < 4 ∨ t1 - t0 < 5 / 100)) ∧
       (4 ≤ hist.length → ¬(t1 - t0 < 5 / 100) →
        opennessSpeed hist = some ((o1 - o0) / (t1 - t0))))) := by
  constructor
  · intro hist h
    unfold opennessSpeed
    rw [if_pos h]
  · intro hist t0 o0 t1 o1 hh hl
    have e1 : hist.headD (0, 0) = (t0, o0) := by
      rw [List.headD_eq_head?_getD, hh, Option.getD_some]
    have e2 : hist.getLastD (0, 0) = (t1, o1) := by
      rw [List.getLastD_eq_getLast?, hl, Option.getD_some]
    unfold opennessSpeed
    rw [e1, e2]
    simp only []
    constructor
    · constructor
      · intro hn
        by_cases h4 : hist.length < 4
        · exact Or.inl h4
        · rw [if_neg h4] at hn
          split_ifs at hn with h5
          exact Or.inr h5
      · intro hor
        rcases hor with h4 | h5
        · rw [if_pos h4]
        · by_cases h4 : hist.length < 4
          · rw [if_pos h4]
          · rw [if_neg h4, if_pos h5]
    · intro h4 h5
      rw [if_neg (by omega), if_neg h5]

/-- Witness for C6 on a concrete 4-sample window spanning 3 s. -/
theorem C6_speed_guards_witness :
    opennessSpeed [((0 : ℚ), (0 : ℚ)), (1, 0), (2, 0), (3, 1)] =
      some ((1 - 0) / (3 - 0)) :=
  ((C6_speed_guards.2 [(0, 0), (1, 0), (2, 0), (3, 1)] 0 0 3 1 rfl rfl).2
    (by decide) (by norm_num))

/-- C7: for every snapshot with at least 21 landmarks the openness
estimator returns exactly the spec's formula — clamp((avg − 0.6) / 1.0)
over the mean of the surviving per-finger ratios, 0.0 when none survive —
and the result always lies in [0, 1]. -/
theorem C7_openness_estimator :
    ∀ (sq : ℚ → ℚ) (hand : HandData), 21 ≤ hand.landmarks.length →
      handOpenness sq hand = some (opennessSpec sq hand) ∧
      0 ≤ opennessSpec sq hand ∧ opennessSpec sq hand ≤ 1 := by
  intro sq hand h21
  exact ⟨handOpenness_eq_spec sq hand h21, opennessSpec_bounds sq hand⟩

/-- Witness for C7 at the concrete openness-0.9 hand. -/
theorem C7_openness_estimator_witness :
    handOpenness sqW h09 = some (opennessSpec sqW h09) ∧
    0 ≤ opennessSpec sqW h09 ∧ opennessSpec sqW h09 ≤ 1 :=
  C7_openness_estimator sqW h09 (by decide)

/-- Complement delimiting the C2 failure: from every reachable state,
`update` returns normally (no raised exception) for input `None` and for
every snapshot with at least 21 landmarks, however degenerate its values —
so the only failing inputs are snapshots with short landmark lists. -/
theorem update_no_raise_wellformed :
    ∀ (sq : ℚ → ℚ) (s : RecogniserState) (hand : Option HandData) (now : ℚ),
      Reach sq s →
      (hand = none ∨ ∃ hd, hand = some hd ∧ 21 ≤ hd.landmarks.length) →
      (update sq s hand now).isSome := by
  intro sq s hand now hr hh
  exact update_isSome sq s hand now (Reach_WF sq s hr) hh

/-- C2: evaluation of the code at the claim's failing input.  A snapshot
whose landmark list has fewer than 21 entries (here an empty one) makes
`update` raise IndexError on the unguarded landmark indexing of
`_hand_openness` (modelled as `none`) on the very first tick, where the
claim says `update` returns a (gesture, payload) pair and never raises. -/
theorem C2_short_snapshot_raises :
    update sqW initState
      (some { landmarks := [], handedness := "Right", timestamp := 0 }) 1 = none := rfl

/-- The all-zero 21-landmark snapshot (fully degenerate geometry) is
processed without error from the initial state. -/
theorem update_no_raise_wellformed_inst :
    (update sqW initState (some degHand) 1).isSome :=
  update_no_raise_wellformed sqW initState (some degHand) 1 Reach.init
    (Or.inr ⟨degHand, rfl, by decide⟩)

theorem classify_zoom_end_or (sq : ℚ → ℚ) (s : RecogniserState)
    (op sx sy now : ℚ) (s' : RecogniserState) (g : Gesture) (p : Option (ℚ × ℚ))
    (h : classify sq s op sx sy now = some (s', g, p)) :
    s'.zoom_end_time = s.zoom_end_time ∨ s'.zoom_end_time = now := by
  obtain ⟨base, fed, hb, hs', -, -⟩ := classify_cases sq s op sx sy now s' g p h
  subst hs'
  rw [(setGesture_preserves base fed).2.2.2.2.2.2]
  rcases hb with rfl | rfl
  · exact Or.inl rfl
  · exact zoomEndUpdate_zoom_end_or s (opennessSpeed s.openness_history) now

theorem update_zoom_end_or (sq : ℚ → ℚ) (s : RecogniserState)
    (hand : Option HandData) (now : ℚ) (s' : RecogniserState) (g : Gesture)
    (p : Option (ℚ × ℚ)) (h : update sq s hand now = some (s', g, p)) :
    s'.zoom_end_time = s.zoom_end_time ∨ s'.zoom_end_time = now := by
  rcases hand with _ | hd
  · simp only [update, Option.some.injEq, Prod.mk.injEq] at h
    obtain ⟨h1, -, -⟩ := h
    subst h1
    rw [(setGesture_preserves (resetSmooth s) Gesture.IDLE).2.2.2.2.2.2]
    exact Or.inl rfl
  · rcases hop : handOpenness sq hd with _ | op
    · simp only [update, Option.bind_eq_bind, hop, Option.none_bind] at h
      exact Option.noConfusion h
    · rcases hc : fingertipCenter hd with _ | c
      · simp only [update, Option.bind_eq_bind, hop, Option.some_bind, hc,
          Option.none_bind] at h
        exact Option.noConfusion h
      · rcases hr : ema s c.1 c.2.1 c.2.2 with _ | r
        · simp only [update, Option.bind_eq_bind, hop, Option.some_bind, hc, hr,
            Option.none_bind] at h
          exact Option.noConfusion h
        · obtain ⟨s₁, sx, sy, sz⟩ := r
          rcases hr2 : classify sq s₁ op sx sy now with _ | r2
          · simp only [update, Option.bind_eq_bind, hop, Option.some_bind, hc, hr,
              hr2, Option.none_bind] at h
            exact Option.noConfusion h
          · obtain ⟨s₂, g2, p2⟩ := r2
            have hz1 := (ema_some_fields s c.1 c.2.1 c.2.2 s₁ sx sy sz hr).2.2.2.2.2.2.2.2.2
            have hz2 := classify_zoom_end_or sq s₁ op sx sy now s₂ g2 p2 hr2
            simp only [update, Option.bind_eq_bind, hop, Option.some_bind, hc, hr,
              hr2, Option.some.injEq, Prod.mk.injEq] at h
            obtain ⟨h1, -, -⟩ := h
            subst h1
            simp only []
            rcases hz2 with hz2 | hz2
            · rw [hz2, hz1]
              exact Or.inl rfl
            · rw [hz2]
              exact Or.inr rfl

/-- C9: a fresh recogniser has its zoom-end timestamp initialised to 0,
tick times ≥ 0 keep the timestamp nonnegative, and on every tick with
0 ≤ zoom_end_time, 0 ≤ now and now < 0.3 the classifier cannot produce an
Orbit candidate or payload — the initial state behaves exactly as if a
zoom had ended at clock time 0. -/
theorem C9_initial_cooldown :
    initState.zoom_end_time = 0 ∧
    (∀ (sq : ℚ → ℚ) (s : RecogniserState) (hand : Option HandData) (now : ℚ)
       (s' : RecogniserState) (g : Gesture) (p : Option (ℚ × ℚ)),
      0 ≤ s.zoom_end_time → 0 ≤ now →
      update sq s hand now = some (s', g, p) → 0 ≤ s'.zoom_end_time) ∧
    (∀ (sq : ℚ → ℚ) (s : RecogniserState) (op sx sy now : ℚ)
       (s' : RecogniserState) (g : Gesture) (p : Option (ℚ × ℚ)),
      0 ≤ s.zoom_end_time → 0 ≤ now → now < 3 / 10 →
      classify sq s op sx sy now = some (s', g, p) →
      p = none ∧ s'.candidate ≠ Gesture.ORBIT) ∧
    (∀ (sq : ℚ → ℚ) (s : RecogniserState) (op sx sy now : ℚ),
      0 ≤ s.zoom_end_time → 0 ≤ now → now < 3 / 10 →
      (opennessSpeed s.openness_history = none ∨
        ∃ sp, opennessSpeed s.openness_history = some sp ∧
          ¬ZOOM_SPEED_THRESHOLD < sp ∧ ¬sp < -ZOOM_SPEED_THRESHOLD) →
      ¬(s.current_gesture = Gesture.ZOOM_IN ∧ 7 / 10 < op) →
      ¬(s.current_gesture = Gesture.ZOOM_OUT ∧ op < 3 / 10) →
      ∃ g, classify sq s op sx sy now =
          some ((setGesture
            (zoomEndUpdate s (opennessSpeed s.openness_history) now)
            Gesture.IDLE).1, g, none) ∧
        (setGesture (zoomEndUpdate s (opennessSpeed s.openness_history) now)
          Gesture.IDLE).1.candidate = Gesture.IDLE) := by
  refine ⟨rfl, ?_, ?_, ?_⟩
  · intro sq s hand now s' g p hz hn h
    rcases update_zoom_end_or sq s hand now s' g p h with he | he <;> rw [he]
    · exact hz
    · exact hn
  · intro sq s op sx sy now s' g p hz hn hlt h
    obtain ⟨base, fed, hb, hs', hg, hp⟩ := classify_cases sq s op sx sy now s' g p h
    rcases hp with ⟨hpn, hfne⟩ | ⟨px, py, -, -, hps, hforb, hncd⟩
    · subst hs'
      rw [setGesture_candidate]
      exact ⟨hpn, hfne⟩
    · exfalso
      apply hncd
      rcases zoomEndUpdate_zoom_end_or s (opennessSpeed s.openness_history) now
        with he | he <;> rw [he] <;> unfold ORBIT_AFTER_ZOOM_COOLDOWN <;> linarith
  · intro sq s op sx sy now hz hn hlt hsp hs1 hs2
    have hcl : classify sq s op sx sy now =
        classifyAfterZoom sq s (opennessSpeed s.openness_history) op sx sy now := by
      rcases hsp with hnone | ⟨sp, hsome, h1, h2⟩
      · rw [hnone]
        exact classify_eq_afterZoom_none sq s op sx sy now hnone
      · rw [hsome]
        exact classify_eq_afterZoom_some sq s op sx sy now sp hsome h1 h2
    have hcd : now -
        (zoomEndUpdate s (opennessSpeed s.openness_history) now).zoom_end_time <
        ORBIT_AFTER_ZOOM_COOLDOWN := by
      rcases zoomEndUpdate_zoom_end_or s (opennessSpeed s.openness_history) now
        with he | he <;> rw [he] <;> unfold ORBIT_AFTER_ZOOM_COOLDOWN <;> linarith
    refine ⟨(setGesture (zoomEndUpdate s (opennessSpeed s.openness_history) now)
        Gesture.IDLE).2, ?_, setGesture_candidate _ Gesture.IDLE⟩
    rw [hcl]
    exact afterZoom_cooldown sq s (opennessSpeed s.openness_history) op sx sy now
      hs1 hs2 hcd

/-- Witness for C9's cooldown conjuncts at the initial state: a
qualifying open hand at time 0.1 yields no payload and an IDLE
(non-ORBIT) candidate. -/
theorem C9_initial_cooldown_witness :
    ((none : Option (ℚ × ℚ)) = none ∧
     ((setGesture initState Gesture.IDLE).1).candidate ≠ Gesture.ORBIT) ∧
    (∃ g, classify sqW initState 1 0 0 (1 / 10) =
        some ((setGesture
          (zoomEndUpdate initState (opennessSpeed initState.openness_history)
            (1 / 10)) Gesture.IDLE).1, g, none) ∧
      (setGesture (zoomEndUpdate initState
          (opennessSpeed initState.openness_history) (1 / 10))
        Gesture.IDLE).1.candidate = Gesture.IDLE) :=
  ⟨C9_initial_cooldown.2.2.1 sqW initState 1 0 0 (1 / 10)
    (setGesture initState Gesture.IDLE).1 (setGesture initState Gesture.IDLE).2 none
    (by norm_num [initState]) (by norm_num) (by norm_num)
    (by
      rw [classify_eq_afterZoom_none sqW initState 1 0 0 (1 / 10) rfl]
      rw [afterZoom_cooldown sqW initState none 1 0 0 (1 / 10)
        (by simp [initState]) (by simp [initState])
        (by norm_num [zoomEndUpdate, initState, ORBIT_AFTER_ZOOM_COOLDOWN])]
      rfl),
   C9_initial_cooldown.2.2.2 sqW initState 1 0 0 (1 / 10)
    (by norm_num [initState]) (by norm_num) (by norm_num) (Or.inl rfl)
    (fun hc => absurd hc.1 (by decide)) (fun hc => absurd hc.1 (by decide))⟩

/-- C1 (amended): on every tick the payload is present iff the candidate
produced on this tick (the post-tick candidate of the hysteresis filter)
is ORBIT, in which case it is the displacement (sx − prev_x, sy − prev_y)
of the smoothed fingertip centroid since the previous tick; the returned
gesture is the hysteresis-confirmed gesture, which can differ from ORBIT
while confirmation is pending, so a payload can accompany a non-ORBIT
return value; non-ORBIT candidates never carry a payload. -/
theorem C1_payload_characterisation :
    ∀ (sq : ℚ → ℚ) (s : RecogniserState) (op sx sy now : ℚ)
      (s' : RecogniserState) (g : Gesture) (p : Option (ℚ × ℚ)),
      classify sq s op sx sy now = some (s', g, p) →
      (p.isSome ↔ s'.candidate = Gesture.ORBIT) ∧
      (∀ dx dy, p = some (dx, dy) →
        ∃ px py, s.prev_x = some px ∧ s.prev_y = some py ∧
          dx = sx - px ∧ dy = sy - py) ∧
      g = s'.current_gesture := by
  intro sq s op sx sy now s' g p h
  obtain ⟨base, fed, hb, hs', hg, hp⟩ := classify_cases sq s op sx sy now s' g p h
  subst hs'
  have hcand := setGesture_candidate base fed
  refine ⟨?_, ?_, hg.trans (setGesture_snd_eq base fed)⟩
  · rcases hp with ⟨hpn, hfne⟩ | ⟨px, py, -, -, hps, hforb, -⟩
    · subst hpn
      simp only [Option.isSome_none, Bool.false_eq_true, false_iff]
      rw [hcand]
      exact hfne
    · subst hps
      simp only [Option.isSome_some, true_iff]
      rw [hcand, hforb]
  · intro dx dy hpd
    rcases hp with ⟨hpn, -⟩ | ⟨px, py, hpx, hpy, hps, -, -⟩
    · rw [hpn] at hpd
      exact Option.noConfusion hpd
    · rw [hps] at hpd
      simp only [Option.some.injEq, Prod.mk.injEq] at hpd
      exact ⟨px, py, hpx, hpy, hpd.1.symm, hpd.2.symm⟩

/-- Concrete orbit tick used by the C1 and C4 witnesses: from an idle
state with previous position (0, 0), an openness-1 tick whose smoothed
position moved by (3/100, 1/25) (distance 1/20 > dead zone) fires the
orbit branch. -/
theorem classify_orbS :
    classify sqW orbS 1 (3 / 100) (1 / 25) 1 =
      some ((setGesture orbS Gesture.ORBIT).1, (setGesture orbS Gesture.ORBIT).2,
        some (3 / 100 - 0, 1 / 25 - 0)) := by
  rw [classify_eq_afterZoom_none sqW orbS 1 (3 / 100) (1 / 25) 1 rfl]
  rw [afterZoom_orbit sqW orbS none 1 (3 / 100) (1 / 25) 1 0 0
    (by simp [orbS, initState]) (by simp [orbS, initState])
    (by norm_num [zoomEndUpdate, orbS, initState, ORBIT_AFTER_ZOOM_COOLDOWN])
    (by norm_num) rfl rfl
    (by norm_num [hypot, sqW, ORBIT_DEAD_ZONE])]
  rfl

/-- Witness for the amended C1 at the concrete orbit tick. -/
theorem C1_payload_characterisation_witness :
    ((some ((3 : ℚ) / 100 - 0, (1 : ℚ) / 25 - 0)).isSome ↔
      (setGesture orbS Gesture.ORBIT).1.candidate = Gesture.ORBIT) ∧
    (setGesture orbS Gesture.ORBIT).2 =
      (setGesture orbS Gesture.ORBIT).1.current_gesture :=
  have h := C1_payload_characterisation sqW orbS 1 (3 / 100) (1 / 25) 1
    (setGesture orbS Gesture.ORBIT).1 (setGesture orbS Gesture.ORBIT).2
    (some (3 / 100 - 0, 1 / 25 - 0)) classify_orbS
  ⟨h.1, h.2.2⟩

/-- Counterexample to C1 as stated: a reachable two-tick run whose second
tick returns the pair (IDLE, some payload) — the payload is present while
the returned gesture is not ORBIT. -/
theorem C1_counterexample :
    ((update sqW initState (some handA) (3 / 10)).bind
      (fun r => update sqW r.1 (some handB) (2 / 5))).map
        (fun r => (r.2.1, r.2.2)) =
      some (Gesture.IDLE, some (3 / 100, 1 / 25)) ∧
    Gesture.IDLE ≠ Gesture.ORBIT := by
  constructor
  · rw [c1_tick1]
    simp only [Option.some_bind]
    rw [c1_tick2]
    rfl
  · decide

/-- C4: after a confirmed zoom sees a known speed below threshold the
zoom-end timestamp is recorded as `now`; while the tick time is within
0.3 s of the (possibly just-recorded) zoom-end timestamp — and the zoom
branches do not fire — the candidate is forced to IDLE with no payload
and the returned gesture is never ORBIT; once the 0.3 s window has
passed, an orbit-qualifying tick (openness > 0.55, displacement above the
dead zone) yields candidate ORBIT with the displacement payload, and
three consecutive ORBIT candidates confirm ORBIT. -/
theorem C4_cooldown_suppression :
    (∀ (s : RecogniserState) (sp now : ℚ),
      (s.current_gesture = Gesture.ZOOM_IN ∨ s.current_gesture = Gesture.ZOOM_OUT) →
      |sp| < ZOOM_SPEED_THRESHOLD →
      (zoomEndUpdate s (some sp) now).zoom_end_time = now) ∧
    (∀ (sq : ℚ → ℚ) (s : RecogniserState) (op sx sy now : ℚ),
      (opennessSpeed s.openness_history = none ∨
        ∃ sp, opennessSpeed s.openness_history = some sp ∧
          ¬ZOOM_SPEED_THRESHOLD < sp ∧ ¬sp < -ZOOM_SPEED_THRESHOLD) →
      ¬(s.current_gesture = Gesture.ZOOM_IN ∧ 7 / 10 < op) →
      ¬(s.current_gesture = Gesture.ZOOM_OUT ∧ op < 3 / 10) →
      now - (zoomEndUpdate s (opennessSpeed s.openness_history) now).zoom_end_time <
        ORBIT_AFTER_ZOOM_COOLDOWN →
      ∃ s' g, classify sq s op sx sy now = some (s', g, none) ∧
        s'.candidate = Gesture.IDLE ∧
        (s.current_gesture ≠ Gesture.ORBIT → g ≠ Gesture.ORBIT)) ∧
    (∀ (sq : ℚ → ℚ) (s : RecogniserState) (op sx sy now px py : ℚ),
      (opennessSpeed s.openness_history = none ∨
        ∃ sp, opennessSpeed s.openness_history = some sp ∧
          ¬ZOOM_SPEED_THRESHOLD < sp ∧ ¬sp < -ZOOM_SPEED_THRESHOLD) →
      ¬(s.current_gesture = Gesture.ZOOM_IN ∧ 7 / 10 < op) →
      ¬(s.current_gesture = Gesture.ZOOM_OUT ∧ op < 3 / 10) →
      ¬(now - (zoomEndUpdate s (opennessSpeed s.openness_history) now).zoom_end_time <
          ORBIT_AFTER_ZOOM_COOLDOWN) →
      55 / 100 < op → s.prev_x = some px → s.prev_y = some py →
      ORBIT_DEAD_ZONE < hypot sq (sx - px) (sy - py) →
      ∃ s' g, classify sq s op sx sy now = some (s', g, some (sx - px, sy - py)) ∧
        s'.candidate = Gesture.ORBIT) ∧
    (∀ s : RecogniserState,
      (setGesture (setGesture (setGesture s Gesture.ORBIT).1 Gesture.ORBIT).1
        Gesture.ORBIT).1.current_gesture = Gesture.ORBIT) := by
  refine ⟨fun s sp now hz hsp => zoomEndUpdate_records s sp now hz hsp, ?_, ?_,
    fun s => setGesture_three s Gesture.ORBIT⟩
  · intro sq s op sx sy now hsp hs1 hs2 hcd
    have hcl : classify sq s op sx sy now =
        classifyAfterZoom sq s (opennessSpeed s.openness_history) op sx sy now := by
      rcases hsp with hn | ⟨sp, hsome, h1, h2⟩
      · rw [hn]
        exact classify_eq_afterZoom_none sq s op sx sy now hn
      · rw [hsome]
        exact classify_eq_afterZoom_some sq s op sx sy now sp hsome h1 h2
    refine ⟨(setGesture (zoomEndUpdate s (opennessSpeed s.openness_history) now)
        Gesture.IDLE).1,
      (setGesture (zoomEndUpdate s (opennessSpeed s.openness_history) now)
        Gesture.IDLE).2, ?_, ?_, ?_⟩
    · rw [hcl]
      exact afterZoom_cooldown sq s (opennessSpeed s.openness_history) op sx sy now
        hs1 hs2 hcd
    · exact setGesture_candidate _ Gesture.IDLE
    · intro hne
      rw [setGesture_snd_eq]
      rcases setGesture_current_or
        (zoomEndUpdate s (opennessSpeed s.openness_history) now) Gesture.IDLE
        with he | he <;> rw [he]
      · rw [(zoomEndUpdate_preserves s (opennessSpeed s.openness_history) now).2.2.2.2.2.2.2.2]
        exact hne
      · decide
  · intro sq s op sx sy now px py hsp hs1 hs2 hcd hop hpx hpy hdz
    have hcl : classify sq s op sx sy now =
        classifyAfterZoom sq s (opennessSpeed s.openness_history) op sx sy now := by
      rcases hsp with hn | ⟨sp, hsome, h1, h2⟩
      · rw [hn]
        exact classify_eq_afterZoom_none sq s op sx sy now hn
      · rw [hsome]
        exact classify_eq_afterZoom_some sq s op sx sy now sp hsome h1 h2
    refine ⟨(setGesture (zoomEndUpdate s (opennessSpeed s.openness_history) now)
        Gesture.ORBIT).1,
      (setGesture (zoomEndUpdate s (opennessSpeed s.openness_history) now)
        Gesture.ORBIT).2, ?_, setGesture_candidate _ Gesture.ORBIT⟩
    rw [hcl]
    exact afterZoom_orbit sq s (opennessSpeed s.openness_history) op sx sy now px py
      hs1 hs2 hcd hop hpx hpy hdz

/-- Witness for C4: timestamp recording at a confirmed ZOOM_IN with speed
0; suppression at 0.1 s after the zoom end; orbit recovery at 1 s from an
idle state; confirmation after three ORBIT feeds. -/
theorem C4_cooldown_suppression_witness :
    (zoomEndUpdate coolS (some 0) 2).zoom_end_time = 2 ∧
    (∃ s' g, classify sqW coolS (6 / 10) 0 0 (11 / 10) = some (s', g, none) ∧
      s'.candidate = Gesture.IDLE ∧
      (coolS.current_gesture ≠ Gesture.ORBIT → g ≠ Gesture.ORBIT)) ∧
    (∃ s' g, classify sqW orbS 1 (3 / 100) (1 / 25) 1 =
        some (s', g, some (3 / 100 - 0, 1 / 25 - 0)) ∧
      s'.candidate = Gesture.ORBIT) ∧
    (setGesture (setGesture (setGesture initState Gesture.ORBIT).1 Gesture.ORBIT).1
      Gesture.ORBIT).1.current_gesture = Gesture.ORBIT :=
  ⟨C4_cooldown_suppression.1 coolS 0 2 (Or.inl rfl)
     (by norm_num [ZOOM_SPEED_THRESHOLD]),
   C4_cooldown_suppression.2.1 sqW coolS (6 / 10) 0 0 (11 / 10) (Or.inl rfl)
     (fun hc => by norm_num at hc) (fun hc => by exact absurd hc.1 (by decide))
     (by norm_num [zoomEndUpdate, opennessSpeed, coolS, initState,
       ORBIT_AFTER_ZOOM_COOLDOWN]),
   C4_cooldown_suppression.2.2.1 sqW orbS 1 (3 / 100) (1 / 25) 1 0 0 (Or.inl rfl)
     (fun hc => by exact absurd hc.1 (by decide))
     (fun hc => by exact absurd hc.1 (by decide))
     (by norm_num [zoomEndUpdate, opennessSpeed, orbS, initState,
       ORBIT_AFTER_ZOOM_COOLDOWN])
     (by norm_num) rfl rfl (by norm_num [hypot, sqW, ORBIT_DEAD_ZONE]),
   C4_cooldown_suppression.2.2.2 initState⟩

/-- Counterexample to C5 as stated: after exactly the four rising-openness
ticks (0.2 → 0.9 within 0.1 s) the candidate gesture is still IDLE, not
ZOOM_IN, because classification reads the openness history buffered on the
previous ticks — the fourth sample is appended only after the fourth
tick's classification. -/
theorem C5_counterexample :
    (runTrace sqW initState zTicks4).map
      (fun s => (s.candidate, s.current_gesture)) =
      some (Gesture.IDLE, Gesture.IDLE) ∧
    Gesture.IDLE ≠ Gesture.ZOOM_IN := by
  constructor
  · simp only [zTicks4, runTrace, z_tick1, z_tick2, z_tick3, z_tick4,
      Option.some_bind, Option.map_some']
    rfl
  · decide

/-- C5 (amended): with the one-tick offset forced by the code — the
openness history is appended after classification — the rising sequence
makes the candidate ZOOM_IN on the fifth tick (the first whose visible
window holds the four rising samples, speed = 7 > 0.8), and after three
consecutive such ticks (ticks 5-7) the confirmed output becomes ZOOM_IN
with no payload. -/
theorem C5_zoom_scenario :
    ((runTrace sqW initState zTicks4).bind
        (fun s => update sqW s (some h09) (113 / 100))).map
      (fun r => (r.1.candidate, r.2.1, r.2.2)) =
      some (Gesture.ZOOM_IN, Gesture.IDLE, none) ∧
    ((runTrace sqW initState zTicks6).bind
        (fun s => update sqW s (some h09) (6 / 5))).map
      (fun r => (r.2.1, r.2.2)) = some (Gesture.ZOOM_IN, none) := by
  constructor
  · simp only [zTicks4, runTrace, z_tick1, z_tick2, z_tick3, z_tick4,
      Option.some_bind, z_tick5, Option.map_some']
    rfl
  · simp only [zTicks6, zTicks4, List.cons_append, List.nil_append, runTrace,
      z_tick1, z_tick2, z_tick3, z_tick4, z_tick5, z_tick6, Option.some_bind,
      z_tick7, Option.map_some']
